import Mathlib

/-!
Verification development for the payment backend's statistics aggregation,
invoice-based payment-intent construction, and refund orchestration logic
(`src/modules/payment/services.js` and `src/modules/payment/controller.js`).

JavaScript semantics are embedded shallowly:
* JS numbers that can become `NaN` (via `parseInt`) are `Option Int`
  (`none` = `NaN`); all other amounts are plain `Int`/`Nat`.
* JS `a || b` on strings/numbers is embedded by the `jsOr*` helpers
  (empty string and `0` and `NaN` are falsy).
* Thrown JS errors become `Except JsError`; the mutable remote platform
  state is threaded explicitly through a state-and-exception monad in
  which state survives a throw (as remote side effects do).
* UTC calendar days are `Nat` day indices (the embedding of the
  `toISOString().split('T')[0]` date-string key); instants are
  milliseconds since epoch.
-/

namespace Pokato

/-- ASCII digit test (a kernel-computable form of `Char.isDigit`). -/
def charIsDigit (c : Char) : Bool :=
  48 ≤ c.toNat && c.toNat ≤ 57

/-- Numeric value of a run of ASCII digits. -/
def digitsVal (l : List Char) : Nat :=
  l.foldl (fun acc c => acc * 10 + (c.toNat - 48)) 0

/-- JS `parseInt(s, 10)`: optional sign followed by a longest digit prefix;
`none` embeds `NaN` (no digits). Leading whitespace is not modelled. -/
def jsParseInt (s : String) : Option Int :=
  let (sign, rest) :=
    match s.data with
    | '-' :: r => ((-1 : Int), r)
    | '+' :: r => ((1 : Int), r)
    | r => ((1 : Int), r)
  let digits := rest.takeWhile charIsDigit
  if digits.isEmpty then none
  else some (sign * (digitsVal digits : Nat))

/-- JS `x || d` for a possibly-NaN number `x` (`none` = NaN; `0` and NaN
are falsy). -/
def jsOrNum (x : Option Int) (d : Int) : Int :=
  match x with
  | none => d
  | some v => if v = 0 then d else v

/-- JS `s || d` for strings (empty string is falsy). -/
def jsOrStr (s : String) (d : String) : String :=
  if s = "" then d else s

/-- JS `s || d` for an optional string (missing and empty are falsy). -/
def jsOrOptStr (s : Option String) (d : String) : String :=
  match s with
  | none => d
  | some v => if v = "" then d else v

/-- JS `a || b` for two optional strings, normalising falsy to `none`
(as in `charge.billing_details?.email || charge.metadata?.customerEmail || null`). -/
def jsOrElseStr (a b : Option String) : Option String :=
  match a with
  | some v => if v = "" then (match b with
      | some w => if w = "" then none else some w
      | none => none)
    else some v
  | none => match b with
    | some w => if w = "" then none else some w
    | none => none

/-- NaN-propagating addition on JS numbers. -/
def jsAdd (a b : Option Int) : Option Int :=
  match a, b with
  | some x, some y => some (x + y)
  | _, _ => none

/-- NaN-propagating subtraction on JS numbers. -/
def jsSub (a b : Option Int) : Option Int :=
  match a, b with
  | some x, some y => some (x - y)
  | _, _ => none

/-- JS `Math.round(a / n)` for an integer `a` and positive integer `n`:
round half toward positive infinity, i.e. `⌊a/n + 1/2⌋ = ⌊(2a+n)/(2n)⌋`. -/
def jsMathRoundDiv (a : Int) (n : Nat) : Int :=
  Int.fdiv (2 * a + n) (2 * n)

/-- A thrown JS `Error`, with the ad-hoc `statusCode`/`code` fields this
code base bolts on. -/
structure JsError where
  message : String
  statusCode : Option Nat := none
  code : Option String := none
  deriving DecidableEq, Repr

/-- `error.message || d` (empty message falsy). -/
def jsOrMsg (e : JsError) (d : String) : String :=
  jsOrStr e.message d

/-- Milliseconds in a UTC calendar day. -/
def msPerDay : Nat := 86400000

/-- A charge record as read from the remote platform
(the fields the services consume). `created` is unix seconds. -/
structure ChargeRec where
  id : String
  created : Int
  amount : Int
  currency : String
  status : String
  paid : Bool
  customer : Option String := none
  payment_method : Option String := none
  receipt_url : Option String := none
  description : Option String := none
  receipt_email : Option String := none
  billing_details_email : Option String := none
  billing_details_name : Option String := none
  metadata_tipAmount : Option String := none
  metadata_tippingMethod : Option String := none
  metadata_customerEmail : Option String := none
  metadata_customerName : Option String := none
  amount_details_tip : Option Int := none
  amount_refunded : Int := 0
  refunded : Bool := false
  deriving DecidableEq, Repr, Inhabited

/-- UTC calendar day index of an instant in milliseconds (the embedding
of the ISO date string `toISOString().split('T')[0]`). -/
def dayOfMs (ms : Int) : Int :=
  Int.fdiv ms msPerDay

/-- UTC calendar day of a charge: the embedding of
`new Date(charge.created * 1000).toISOString().split('T')[0]`. -/
def chargeDay (c : ChargeRec) : Int :=
  dayOfMs (c.created * 1000)

/-- The tip derivation shared by `groupChargesByDateService` and
`getTransactionsService`:
`charge.metadata?.tipAmount ? parseInt(charge.metadata.tipAmount, 10)
 : (charge.amount_details?.tip?.amount || 0)`.
`none` embeds a NaN produced by `parseInt` on a non-numeric truthy string. -/
def chargeTipAmount (c : ChargeRec) : Option Int :=
  match c.metadata_tipAmount with
  | some s =>
    if s = "" then some (jsOrNum c.amount_details_tip 0)
    else jsParseInt s
  | none => some (jsOrNum c.amount_details_tip 0)

/-- A daily statistics bucket (`statsByDate` values). The `date` is the
UTC day index embedding the ISO date-string key; `totalTips` is a JS
number that can be NaN. -/
structure StatBucket where
  date : Int
  count : Nat
  totalAmount : Int
  successful : Nat
  failed : Nat
  totalTips : Option Int
  deriving DecidableEq, Repr

/-- The all-zero bucket created for a fresh date key (and for filled-in
missing days). -/
def zeroBucket (d : Int) : StatBucket :=
  { date := d, count := 0, totalAmount := 0, successful := 0, failed := 0,
    totalTips := some 0 }

/-- One iteration of the `charges.forEach` body of
`groupChargesByDateService`, applied to the bucket of the charge's day. -/
def addChargeToBucket (b : StatBucket) (c : ChargeRec) : StatBucket :=
  { b with
    count := b.count + 1
    totalAmount := b.totalAmount + c.amount
    totalTips := jsAdd b.totalTips (chargeTipAmount c)
    successful := if c.status = "succeeded" ∧ c.paid then b.successful + 1 else b.successful
    failed := if c.status = "succeeded" ∧ c.paid then b.failed else b.failed + 1 }

/-- `groupChargesByDateService`: fold the charges into a sparse map from
UTC day key to bucket (the JS object keyed by ISO date string). -/
def groupChargesByDateService (charges : List ChargeRec) : Int → Option StatBucket :=
  charges.foldl
    (fun m c =>
      let d := chargeDay c
      let b := (m d).getD (zeroBucket d)
      fun d2 => if d2 = d then some (addChargeToBucket b c) else m d2)
    (fun _ => none)

/-- `fillMissingDaysService`: walk one calendar day at a time from
`startMs` while not past `endMs`, taking the existing bucket for the
day's key or an all-zero bucket. Instants are UTC milliseconds; the
runtime timezone is UTC, so `setDate(getDate() + 1)` advances by exactly
`msPerDay`. -/
def fillMissingDaysService (statsByDate : Int → Option StatBucket)
    (startMs endMs : Int) : List StatBucket :=
  if h : startMs ≤ endMs then
    ((statsByDate (dayOfMs startMs)).getD (zeroBucket (dayOfMs startMs))) ::
      fillMissingDaysService statsByDate (startMs + msPerDay) endMs
  else []
termination_by (endMs + 1 - startMs).toNat
decreasing_by simp [msPerDay]; omega

/-- The summary derived from a bucket sequence. -/
structure Summary where
  totalPayments : Nat
  totalAmount : Int
  averageAmount : Int
  totalTips : Int
  deriving DecidableEq, Repr

/-- `calculateSummaryService`: reductions over the stats array; note the
source's `(stat.totalTips || 0)` guard (NaN and missing become 0). -/
def calculateSummaryService (stats : List StatBucket) : Summary :=
  let totalPayments := stats.foldl (fun sum stat => sum + stat.count) 0
  let totalAmount := stats.foldl (fun sum stat => sum + stat.totalAmount) 0
  let totalTips := stats.foldl (fun sum stat => sum + jsOrNum stat.totalTips 0) 0
  let averageAmount :=
    if totalPayments > 0 then jsMathRoundDiv totalAmount totalPayments else 0
  { totalPayments := totalPayments
    totalAmount := totalAmount
    averageAmount := averageAmount
    totalTips := totalTips }

/-! ## The remote platform model and the request-scoped effect monad

The remote payment platform is an external collaborator (spec §6); the
`Platform` structure is its environment model: oracles fixing the
outcome of each remote operation. The mutable remote state touched by
one request (invoice line items, payment intents, refund requests) is
`PState`, threaded explicitly; a thrown error keeps the state reached so
far, as remote side effects survive a JS exception. -/

/-- A remote invoice line item (id and line total in minor units). -/
structure LineItem where
  id : String
  amount : Int
  deriving DecidableEq, Repr

/-- A created remote payment intent (the fields the claims inspect). -/
structure IntentRec where
  id : String
  amount : Int
  currency : String
  clientSecret : Option String
  deriving DecidableEq, Repr

/-- The parameters of a refund request sent to the platform
(`refundParams` in `createRefundService`): `amount` is absent for a
full-refund request. -/
structure RefundParams where
  charge : String
  amount : Option Int := none
  reason : Option String := none
  deriving DecidableEq, Repr

/-- A refund object returned by the platform. -/
structure RefundObj where
  id : String
  amount : Int
  currency : String
  status : String
  charge : String
  created : Int
  reason : Option String
  deriving DecidableEq, Repr

/-- A remote price object (the field `validatePriceIsOneTime` checks). -/
structure Price where
  type : String
  deriving DecidableEq, Repr

/-- The user row read by `validateStripeAccount` (a database read, not a
remote platform call). -/
structure UserRow where
  stripeAccountId : Option String
  stripeAccountStatus : String
  deriving DecidableEq, Repr

/-- A terminal reader (for `ensureLocationTippingConfig`). -/
structure ReaderObj where
  id : String
  location : Option String
  deriving DecidableEq, Repr

/-- A terminal location (for `ensureLocationTippingConfig`). -/
structure LocationObj where
  id : String
  configuration_overrides : Option String
  deriving DecidableEq, Repr

/-- Remote-request-scoped mutable state: what this request has created
or attempted on the platform so far. -/
structure PState where
  nextId : Nat := 0
  items : List LineItem := []
  deleteAttempts : List String := []
  intents : List IntentRec := []
  refundRequests : List RefundParams := []
  remoteCalls : Nat := 0
  chargeRetrievals : Nat := 0
  deriving DecidableEq, Repr

/-- Environment model of the remote platform and database (spec §6):
each field fixes the outcome of one kind of remote operation. -/
structure Platform where
  userRow : Option UserRow := none
  retrievePrice : String → Except JsError Price := fun _ => .error { message := "No such price" , statusCode := some 404 }
  itemAmount : String → Int → Int := fun _ _ => 0
  createItemFails : Nat → Option JsError := fun _ => none
  deleteItemFails : String → Option JsError := fun _ => none
  findCustomer : Except JsError (Option String) := .ok none
  createCustomer : Except JsError String := .ok "cus_new"
  createInvoiceResult : Except JsError String := .ok "in_1"
  finalizeFails : Option JsError := none
  invoiceCurrency : String := "usd"
  createIntentFails : Option JsError := none
  intentId : String := "pi_1"
  intentClientSecret : Option String := some "secret_1"
  attachFails : Option JsError := none
  chargesInRange : Int → Int → List ChargeRec := fun _ _ => []
  listChargesFails : Option JsError := none
  retrieveCharge : String → Except JsError ChargeRec := fun _ => .error { message := "No such charge" , statusCode := some 404 }
  refundResult : RefundParams → Except JsError RefundObj := fun p =>
    .ok { id := "re_1", amount := p.amount.getD 0, currency := "usd",
          status := "succeeded", charge := p.charge, created := 0, reason := p.reason }
  retrieveReader : String → Except JsError ReaderObj := fun r => .ok { id := r, location := none }
  retrieveLocation : String → Except JsError LocationObj := fun l => .ok { id := l, configuration_overrides := none }
  createConfig : Except JsError String := .ok "tmc_1"
  updateLocationFails : Option JsError := none
  todayMidnightMs : Int := 0

/-- The request-scoped effect monad: explicit state that survives a
thrown error. -/
def M (α : Type) : Type := PState → Except JsError α × PState

/-- `return` of the request monad. -/
def mPure {α : Type} (a : α) : M α := fun s => (.ok a, s)

/-- `await`-sequencing of the request monad: an error short-circuits but
keeps the state reached so far. -/
def mBind {α β : Type} (x : M α) (f : α → M β) : M β := fun s =>
  match x s with
  | (.ok a, s') => f a s'
  | (.error e, s') => (.error e, s')

instance : Monad M where
  pure := mPure
  bind := mBind

theorem bind_eq_mBind {α β : Type} (x : M α) (f : α → M β) : x >>= f = mBind x f := rfl

theorem pure_eq_mPure {α : Type} (a : α) : (pure a : M α) = mPure a := rfl

theorem mBind_ok {α β : Type} {x : M α} {s s' : PState} {a : α} (f : α → M β)
    (h : x s = (.ok a, s')) : mBind x f s = f a s' := by
  unfold mBind; rw [h]

theorem mBind_err {α β : Type} {x : M α} {s s' : PState} {e : JsError} (f : α → M β)
    (h : x s = (.error e, s')) : mBind x f s = (.error e, s') := by
  unfold mBind; rw [h]

/-- Throw a JS error. -/
def throwErr {α : Type} (e : JsError) : M α := fun s => (.error e, s)

/-- Record one remote platform call. -/
def bumpRemote : PState → PState :=
  fun s => { s with remoteCalls := s.remoteCalls + 1 }

/-! ## Charge pagination (`fetchChargesFromStripeService`) -/

/-- The suffix of a charge list strictly after the first element with
the given id (the platform's `starting_after` cursor semantics). -/
def afterId (cur : String) : List ChargeRec → List ChargeRec
  | [] => []
  | c :: cs => if c.id = cur then cs else afterId cur cs

/-- One page of the platform's `charges.list`: up to `limit` records
after the cursor, plus the `has_more` flag. -/
def stripeListPage (all : List ChargeRec) (limit : Nat)
    (startingAfter : Option String) : List ChargeRec × Bool :=
  let rest := match startingAfter with
    | none => all
    | some cur => afterId cur all
  (rest.take limit, decide (limit < rest.length))

/-- The `while (hasMore)` pagination loop of
`fetchChargesFromStripeService`, with fuel standing in for the
unbounded loop (`none` from exhausted fuel never happens against an
honest upstream, see `fetchCharges_complete`). -/
def fetchChargesGo (π : Platform) (all : List ChargeRec) :
    Nat → Option String → List ChargeRec → M (List ChargeRec)
  | 0, _, _ => throwErr { message := "Error fetching charges from Stripe" }
  | fuel + 1, startingAfter, acc => fun s =>
    let s1 := bumpRemote s
    match π.listChargesFails with
    | some e => (.error { message := jsOrMsg e "Error fetching charges from Stripe" }, s1)
    | none =>
      let page := stripeListPage all 100 startingAfter
      let acc' := acc ++ page.1
      if page.2 ∧ page.1 ≠ [] then
        fetchChargesGo π all fuel (some (page.1.getLastD default).id) acc' s1
      else
        (.ok acc', s1)

/-- `fetchChargesFromStripeService`: accumulate every page of charges
created in `[gte, lte]` (unix seconds, inclusive). -/
def fetchChargesFromStripeService (π : Platform) (gte lte : Int) (fuel : Nat) :
    M (List ChargeRec) :=
  fetchChargesGo π (π.chargesInRange gte lte) fuel none []

/-! ## Invoice-based intent builder services -/

/-- JS truthiness of an optional string (missing and `""` are falsy). -/
def jsTruthyStr : Option String → Bool
  | none => false
  | some s => s ≠ ""

/-- Customer details supplied with a payment request. -/
structure CustomerDetails where
  email : Option String := none
  name : Option String := none
  phone : Option String := none
  zip : Option String := none
  deriving DecidableEq, Repr

/-- A (finalized) invoice as the services see it. -/
structure Invoice where
  id : String
  linesCount : Nat
  total : Int
  currency : String
  deriving DecidableEq, Repr

/-- Cart item: a price reference and a quantity (a JS number). -/
structure CartItem where
  priceId : String
  quantity : Int
  deriving DecidableEq, Repr

/-- `validateStripeAccount`: two database checks, no remote platform
call; rejects with `failed-precondition` unless the user has a
connected, active account. -/
def validateStripeAccount (π : Platform) : M String := fun s =>
  match π.userRow with
  | none =>
    (.error { message := "Stripe account not connected. Please connect your Stripe account first.",
              statusCode := some 400, code := some "failed-precondition" }, s)
  | some u =>
    if jsTruthyStr u.stripeAccountId = false then
      (.error { message := "Stripe account not connected. Please connect your Stripe account first.",
                statusCode := some 400, code := some "failed-precondition" }, s)
    else if u.stripeAccountStatus ≠ "active" then
      (.error { message := "Stripe account is not active. Please complete the onboarding process.",
                statusCode := some 400, code := some "failed-precondition" }, s)
    else (.ok (u.stripeAccountId.getD ""), s)

/-- `validatePriceIsOneTime`: retrieve the price and reject any type
other than `one_time` with an `invalid-argument` error; a retrieve
error without a `statusCode` is wrapped into a bare message. -/
def validatePriceIsOneTime (π : Platform) (priceId : String) : M Price := fun s =>
  let s1 := bumpRemote s
  match π.retrievePrice priceId with
  | .error e =>
    if e.statusCode.isSome then (.error e, s1)
    else (.error { message := jsOrMsg e "Error validating price" }, s1)
  | .ok price =>
    if price.type ≠ "one_time" then
      (.error { message := "Price " ++ priceId ++ " is a recurring price. Only one-time prices are supported for Terminal payments.",
                statusCode := some 400, code := some "invalid-argument" }, s1)
    else (.ok price, s1)

/-- Fresh remote invoice-item ids, taken from the request counter. -/
def itemIdOf (n : Nat) : String :=
  "ii_" ++ toString n

/-- Remote semantics of `stripe.invoiceItems.create`: on success a line
item with the platform-determined amount is appended to the invoice. -/
def opCreateInvoiceItem (π : Platform) (amount : Int) : M String := fun s =>
  let s1 := bumpRemote s
  match π.createItemFails s.nextId with
  | some e => (.error e, s1)
  | none =>
    (.ok (itemIdOf s.nextId),
     { s1 with nextId := s.nextId + 1,
               items := s1.items ++ [{ id := itemIdOf s.nextId, amount := amount }] })

/-- `createInvoiceItemService`: create one invoice item for the resolved
customer, quantity as given; any error is re-thrown as a bare message
(its `statusCode`/`code` are dropped). -/
def createInvoiceItemService (π : Platform) (_customerId : Option String)
    (priceId : String) (quantity : Int) (_invoiceId : String) : M String := fun s =>
  match opCreateInvoiceItem π (π.itemAmount priceId quantity) s with
  | (.ok id, s') => (.ok id, s')
  | (.error e, s') => (.error { message := jsOrMsg e "Error creating invoice item" }, s')

/-- `deleteInvoiceItemService`: attempt the remote delete (always
recorded in `deleteAttempts`); a platform failure is logged and
re-thrown, success removes the item. -/
def deleteInvoiceItemService (π : Platform) (itemId : String) : M Unit := fun s =>
  let s1 := { bumpRemote s with deleteAttempts := s.deleteAttempts ++ [itemId] }
  match π.deleteItemFails itemId with
  | some e => (.error e, s1)
  | none => (.ok (), { s1 with items := s1.items.filter (fun it => it.id ≠ itemId) })

/-- The rollback loop of `createInvoiceItemsService`: best-effort delete
of every already-created item, each failure swallowed (logged only). -/
def rollbackInvoiceItems (π : Platform) : List String → PState → PState
  | [], s => s
  | id :: rest, s =>
    let r := deleteInvoiceItemService π id s
    rollbackInvoiceItems π rest r.2

/-- The error `createInvoiceItemsService` re-throws after rollback:
the original error's message wrapped with the failing `priceId`,
defaulting `statusCode` to 400 and `code` to `invalid-argument`. -/
def enhanceItemError (priceId : String) (e : JsError) : JsError :=
  { message := "Invalid priceId: " ++ priceId ++ ". " ++ jsOrMsg e "Unknown error",
    statusCode := some (e.statusCode.getD 400),
    code := some (e.code.getD "invalid-argument") }

/-- The `for (const item of cartItems)` loop of
`createInvoiceItemsService`, carrying the ids created so far. -/
def createInvoiceItemsGo (π : Platform) (invoiceId : String)
    (customerId : Option String) :
    List CartItem → List String → M (List String)
  | [], ids => pure ids
  | item :: rest, ids => fun s =>
    match (do
        let _ ← validatePriceIsOneTime π item.priceId
        createInvoiceItemService π customerId item.priceId item.quantity invoiceId : M String) s with
    | (.ok id, s') => createInvoiceItemsGo π invoiceId customerId rest (ids ++ [id]) s'
    | (.error e, s') => (.error (enhanceItemError item.priceId e), rollbackInvoiceItems π ids s')

/-- `createInvoiceItemsService`: per cart item in input order, validate
the price is one-time and create the invoice item; on any failure
delete every earlier item of this batch and re-throw. -/
def createInvoiceItemsService (π : Platform) (invoiceId : String)
    (customerId : Option String) (cartItems : List CartItem) : M (List String) :=
  createInvoiceItemsGo π invoiceId customerId cartItems []

/-- Modelled from the spec: `addTipLineItemService` is called by the
controller but its definition is missing from the sources (only the
caller appears). Per spec §4.2 step `OptionalTipLineItem`, it adds one
further invoice line item representing the tip (minor units), after all
cart items and before finalization. -/
def addTipLineItemService (π : Platform) (_invoiceId : String)
    (_customerId : Option String) (tipAmount : Int) : M String :=
  opCreateInvoiceItem π tipAmount

/-- `findOrCreateCustomerService`: requires an email; search by exact
email and take the first match, else create; errors re-thrown as bare
messages. -/
def findOrCreateCustomerService (π : Platform) (cd : CustomerDetails) : M String := fun s =>
  if jsTruthyStr cd.email = false then
    (.error { message := "Email is required to create a customer" }, s)
  else
    let s1 := bumpRemote s
    match π.findCustomer with
    | .error e => (.error { message := jsOrMsg e "Error creating/retrieving customer" }, s1)
    | .ok (some cid) => (.ok cid, s1)
    | .ok none =>
      let s2 := bumpRemote s1
      match π.createCustomer with
      | .error e => (.error { message := jsOrMsg e "Error creating/retrieving customer" }, s2)
      | .ok cid => (.ok cid, s2)

/-- `createInvoiceService`: create a non-auto-advancing invoice; errors
re-thrown as bare messages. -/
def createInvoiceService (π : Platform) (_customerId : Option String) : M String := fun s =>
  let s1 := bumpRemote s
  match π.createInvoiceResult with
  | .error e => (.error { message := jsOrMsg e "Error creating invoice" }, s1)
  | .ok invId => (.ok invId, s1)

/-- Sum of the line totals currently on the invoice. -/
def invoiceTotal (items : List LineItem) : Int :=
  (items.map (fun it => it.amount)).sum

/-- `finalizeInvoiceService`: finalize and inspect the result — an
invoice with no lines ("items created but not attached") or zero total
is a fatal 500; remote errors without a `statusCode` are wrapped. -/
def finalizeInvoiceService (π : Platform) (invoiceId : String) : M Invoice := fun s =>
  let s1 := bumpRemote s
  match π.finalizeFails with
  | some e =>
    if e.statusCode.isSome then (.error e, s1)
    else (.error { message := jsOrMsg e "Error finalizing invoice" }, s1)
  | none =>
    let finalized : Invoice :=
      { id := invoiceId, linesCount := s.items.length,
        total := invoiceTotal s.items, currency := π.invoiceCurrency }
    if finalized.linesCount = 0 then
      (.error { message := "Invoice items were created but not attached to invoice. Please try again.",
                statusCode := some 500 }, s1)
    else if finalized.total = 0 then
      (.error { message := "Invoice total is zero. Please ensure invoice has valid line items with one-time prices.",
                statusCode := some 500 }, s1)
    else (.ok finalized, s1)

/-- The flat metadata map attached to a payment intent. -/
structure PaymentMetadata where
  userId : String
  invoiceId : Option String := none
  paymentType : Option String := none
  tipAmount : Option Int := none
  tippingMethod : Option String := none
  customerEmail : Option String := none
  customerName : Option String := none
  customerPhone : Option String := none
  customerZip : Option String := none
  deriving DecidableEq, Repr

/-- Extra metadata the controllers merge into the base map. -/
structure MetadataExtras where
  invoiceId : Option String := none
  paymentType : Option String := none
  tipAmount : Option Int := none
  tippingMethod : Option String := none
  deriving DecidableEq, Repr

/-- `buildPaymentMetadata`: the owning user id, the extras, and any
truthy customer details. -/
def buildPaymentMetadata (userId : String) (metadata : MetadataExtras)
    (cd : CustomerDetails) : PaymentMetadata :=
  { userId := userId
    invoiceId := metadata.invoiceId
    paymentType := metadata.paymentType
    tipAmount := metadata.tipAmount
    tippingMethod := metadata.tippingMethod
    customerEmail := if jsTruthyStr cd.email then cd.email else none
    customerName := if jsTruthyStr cd.name then cd.name else none
    customerPhone := if jsTruthyStr cd.phone then cd.phone else none
    customerZip := if jsTruthyStr cd.zip then cd.zip else none }

/-- What the intent-creating services return. -/
structure IntentResult where
  clientSecret : String
  paymentIntentId : String
  deriving DecidableEq, Repr

/-- `createPaymentIntentFromInvoiceService`: a card-present, automatic
capture intent for the finalized invoice's total (already minor units)
in the invoice's currency (defaulted to `usd` when falsy); a missing
`client_secret` after creation is a 500. -/
def createPaymentIntentFromInvoiceService (π : Platform) (invoiceData : Invoice)
    (_paymentMetadata : PaymentMetadata) (_customerId : Option String) :
    M IntentResult := fun s =>
  let s1 := bumpRemote s
  match π.createIntentFails with
  | some e =>
    if e.statusCode.isSome then (.error e, s1)
    else (.error { message := jsOrMsg e "Error creating payment intent from invoice" }, s1)
  | none =>
    let intent : IntentRec :=
      { id := π.intentId, amount := invoiceData.total,
        currency := jsOrStr invoiceData.currency "usd",
        clientSecret := π.intentClientSecret }
    let s2 := { s1 with intents := s1.intents ++ [intent] }
    if jsTruthyStr π.intentClientSecret = false then
      (.error { message := "PaymentIntent created but missing client_secret",
                statusCode := some 500 }, s2)
    else (.ok { clientSecret := π.intentClientSecret.getD "",
                paymentIntentId := π.intentId }, s2)

/-- `attachPaymentIntentToInvoiceService`: best-effort attach; a
platform failure is wrapped into a 500 error. -/
def attachPaymentIntentToInvoiceService (π : Platform) (_invoiceId : String)
    (_paymentIntentId : String) : M Unit := fun s =>
  let s1 := bumpRemote s
  match π.attachFails with
  | some e =>
    (.error { message := "Failed to attach PaymentIntent to invoice: " ++ e.message,
              statusCode := some 500 }, s1)
  | none => (.ok (), s1)

/-- `createPaymentIntentService` (direct-amount intent, no invoice):
dollar amount converted to cents, same payment-method and fee
constraints; every error is re-thrown as a bare message. Fractional
dollar amounts are not modelled, so `Math.round(amount * 100)` is
`amount * 100`. -/
def createPaymentIntentService (π : Platform) (userId : String) (amount : Int)
    (currency : String) (metadata : MetadataExtras) (cd : CustomerDetails) :
    M IntentResult := fun s =>
  let _paymentMetadata := buildPaymentMetadata userId metadata cd
  let s1 := bumpRemote s
  match π.createIntentFails with
  | some e => (.error { message := jsOrMsg e "Error creating payment intent" }, s1)
  | none =>
    let intent : IntentRec :=
      { id := π.intentId, amount := amount * 100, currency := currency,
        clientSecret := π.intentClientSecret }
    let s2 := { s1 with intents := s1.intents ++ [intent] }
    if jsTruthyStr π.intentClientSecret = false then
      (.error { message := "Failed to create payment intent: missing client secret" }, s2)
    else (.ok { clientSecret := π.intentClientSecret.getD "",
                paymentIntentId := π.intentId }, s2)

/-- Steps 2–5 of `ensureLocationTippingConfig` once a location id is in
hand: retrieve the location, and unless it already has a configuration,
create one and update the location — every failure suppressed. -/
def tippingConfigForLocation (π : Platform) (loc : String) : M Unit := fun s =>
  let s2 := bumpRemote s
  match π.retrieveLocation loc with
  | .error _ => (.ok (), s2)
  | .ok location =>
    if jsTruthyStr location.configuration_overrides then (.ok (), s2)
    else
      let s3 := bumpRemote s2
      match π.createConfig with
      | .error _ => (.ok (), s3)
      | .ok _cfg =>
        let s4 := bumpRemote s3
        (.ok (), s4)

/-- `ensureLocationTippingConfig`: fire-and-forget tipping-config setup
for internet readers; every failure is suppressed. -/
def ensureLocationTippingConfig (π : Platform) (readerId : Option String)
    (connectionType : Option String) (locationId : Option String) : M Unit := fun s =>
  if connectionType ≠ some "internet" then (.ok (), s)
  else
    let locStep : Option String × PState :=
      match locationId with
      | some l => (some l, s)
      | none =>
        match readerId with
        | none => (none, s)
        | some rid =>
          let s1 := bumpRemote s
          match π.retrieveReader rid with
          | .error _ => (none, s1)
          | .ok reader => (reader.location, s1)
    match locStep with
    | (none, s') => (.ok (), s')
    | (some loc, s') => tippingConfigForLocation π loc s'

/-- `getChargeService`: retrieve one charge; errors re-thrown as bare
messages. Retrievals are counted separately in `chargeRetrievals`. -/
def getChargeService (π : Platform) (chargeId : String) : M ChargeRec := fun s =>
  let s1 := { bumpRemote s with chargeRetrievals := s.chargeRetrievals + 1 }
  match π.retrieveCharge chargeId with
  | .error e => (.error { message := jsOrMsg e "Error fetching charge from Stripe" }, s1)
  | .ok c => (.ok c, s1)

/-- The refund summary `createRefundService` returns. -/
structure RefundResp where
  id : String
  amount : Int
  currency : String
  status : String
  charge : String
  created : Int
  reason : Option String
  deriving DecidableEq, Repr

/-- The `amount` sent with a refund: only when truthy and positive
(`if (amount && amount > 0)`); absent means a full refund. -/
def refundAmountParam (amount : Option Int) : Option Int :=
  match amount with
  | some a => if a > 0 then some a else none
  | none => none

/-- The `reason` sent with a refund: only when truthy and in the
accepted enumeration. -/
def refundReasonParam (reason : Option String) : Option String :=
  match reason with
  | some r =>
    if r ≠ "" ∧ (r = "duplicate" ∨ r = "fraudulent" ∨ r = "requested_by_customer")
    then some r else none
  | none => none

/-- `createRefundService`: build the refund parameters — `amount` only
when truthy and positive (absent means a full refund), `reason` only
when in the accepted enumeration — send them, and shape the response
from the returned refund object. -/
def createRefundService (π : Platform) (chargeId : String)
    (amount : Option Int) (reason : Option String) : M RefundResp := fun s =>
  let refundParams : RefundParams :=
    { charge := chargeId, amount := refundAmountParam amount,
      reason := refundReasonParam reason }
  let s1 := { bumpRemote s with refundRequests := s.refundRequests ++ [refundParams] }
  match π.refundResult refundParams with
  | .error e => (.error { message := jsOrMsg e "Error creating refund" }, s1)
  | .ok r =>
    (.ok { id := r.id, amount := r.amount, currency := r.currency,
           status := r.status, charge := r.charge, created := r.created,
           reason := r.reason }, s1)

/-! ## Date parsing and the statistics / transactions services -/

/-- JS `Number(s)` restricted to the integral strings a date component
can be: `""` is 0, an optional sign followed by digits is that integer,
anything else is NaN (`none`). Fractional components are not modelled. -/
def jsNumber (s : String) : Option Int :=
  match s.data with
  | [] => some 0
  | l =>
    let (sign, rest) :=
      match l with
      | '-' :: r => ((-1 : Int), r)
      | '+' :: r => ((1 : Int), r)
      | r => ((1 : Int), r)
    if rest.isEmpty = false ∧ rest.all charIsDigit then some (sign * (digitsVal rest : Nat))
    else none

/-- `split('-')` on the character list of a string (kernel-computable
form of `String.splitOn "-"`; `"".split('-')` is `[""]`). -/
def splitOnDashChars : List Char → List (List Char)
  | [] => [[]]
  | c :: rest =>
    let r := splitOnDashChars rest
    if c = '-' then [] :: r
    else
      match r with
      | [] => [[c]]
      | p :: ps => (c :: p) :: ps

/-- Days from civil date (proleptic Gregorian, `m ∈ [1,12]`), relative
to 1970-01-01 (Howard Hinnant's `days_from_civil`). -/
def civilToDays (y m d : Int) : Int :=
  let y2 := if m ≤ 2 then y - 1 else y
  let era := Int.fdiv y2 400
  let yoe := y2 - era * 400
  let mp := Int.emod (m + 9) 12
  let doy := Int.fdiv (153 * mp + 2) 5 + d - 1
  let doe := yoe * 365 + Int.fdiv yoe 4 - Int.fdiv yoe 100 + doy
  era * 146097 + doe - 719468

/-- `Date.UTC(year, monthIndex, day)` in milliseconds: months and days
outside their ranges carry over, and years 0–99 map to 1900–1999. -/
def dateUTCms (y mIdx d : Int) : Int :=
  let y1 := if 0 ≤ y ∧ y ≤ 99 then y + 1900 else y
  let y2 := y1 + Int.fdiv mIdx 12
  let m2 := Int.emod mIdx 12 + 1
  (civilToDays y2 m2 1 + (d - 1)) * (msPerDay : Int)

/-- `parseDateToUTC`: split a `YYYY-MM-DD` string on `-`, convert the
three components with `Number`, and build the UTC midnight instant;
`none` embeds an Invalid Date (some component was NaN). Without a date
string, today's UTC midnight (`today`) is used. -/
def parseDateToUTC (today : Int) (dateString : Option String) : Option Int :=
  match dateString with
  | none => some today
  | some ds =>
    let parts := (splitOnDashChars ds.data).map List.asString
    let num := fun (i : Nat) =>
      match parts.get? i with
      | some p => jsNumber p
      | none => none
    match num 0, num 1, num 2 with
    | some y, some m, some d => some (dateUTCms y (m - 1) d)
    | _, _, _ => none

/-- The `catch` wrapper shared by the service functions: an error with a
`statusCode` is re-thrown as-is, anything else becomes a bare message. -/
def catchWrap {α : Type} (defaultMsg : String) (x : M α) : M α := fun s =>
  match x s with
  | (.ok a, s') => (.ok a, s')
  | (.error e, s') =>
    if e.statusCode.isSome then (.error e, s')
    else (.error { message := jsOrMsg e defaultMsg }, s')

/-- Run an action and ignore its outcome, keeping its state effects
(the controller's `try { ... } catch { log }`). -/
def tryIgnore {α : Type} (x : M α) : M Unit := fun s =>
  (.ok (), (x s).2)

/-- Stats plus summary for one range. -/
structure DayStats where
  stats : List StatBucket
  summary : Summary
  deriving DecidableEq, Repr

/-- The trailing trend window of the statistics response. -/
structure TrendData where
  days : Int
  stats : List StatBucket
  summary : Summary
  deriving DecidableEq, Repr

/-- The statistics response shape. -/
structure StatsResp where
  singleDay : DayStats
  trendData : Option TrendData
  deriving DecidableEq, Repr

/-- The query parameters of the statistics endpoint (destructuring
defaults `includeTrend = 'true'`, `days = '7'` are applied inside). -/
structure StatsQuery where
  date : Option String := none
  includeTrend : Option String := none
  days : Option String := none
  deriving DecidableEq, Repr

/-- `getPaymentStatsService`: parse and validate the date (reject with
`invalid-argument` before any remote call), compute the single-day and
trailing trend ranges on UTC boundaries, fetch each range independently,
group by day, fill missing days, and summarise. `fuel` bounds the
pagination loops. The `includeTrend === true` boolean variant is not
modelled (query values are strings). -/
def getPaymentStatsService (π : Platform) (q : StatsQuery) (fuel : Nat) :
    M StatsResp :=
  catchWrap "Error getting payment statistics" (fun s =>
    match parseDateToUTC π.todayMidnightMs q.date with
    | none =>
      (.error { message := "Invalid date format. Use ISO date format (e.g., 2025-12-15)",
                statusCode := some 400, code := some "invalid-argument" }, s)
    | some selMs =>
      let trendDays : Int := max 1 (jsOrNum (jsParseInt (q.days.getD "7")) 7)
      let shouldIncludeTrend := q.includeTrend.getD "true" = "true"
      let singleDayStart := selMs
      let singleDayEnd := selMs + 86399999
      let trendStart := selMs - (trendDays - 1) * (msPerDay : Int)
      let trendEnd := selMs + 86399999
      (do
        let singleDayCharges ← fetchChargesFromStripeService π
          (Int.fdiv singleDayStart 1000) (Int.fdiv singleDayEnd 1000) fuel
        let trendCharges ←
          (if shouldIncludeTrend then
            fetchChargesFromStripeService π
              (Int.fdiv trendStart 1000) (Int.fdiv trendEnd 1000) fuel
           else pure [])
        let singleDayStatsByDate := groupChargesByDateService singleDayCharges
        let trendStatsByDate :=
          if shouldIncludeTrend then groupChargesByDateService trendCharges
          else fun _ => none
        let singleDayStats :=
          fillMissingDaysService singleDayStatsByDate singleDayStart singleDayEnd
        let singleDaySummary := calculateSummaryService singleDayStats
        let trendData : Option TrendData :=
          if shouldIncludeTrend then
            let trendStats := fillMissingDaysService trendStatsByDate trendStart trendEnd
            some { days := trendDays, stats := trendStats,
                   summary := calculateSummaryService trendStats }
          else none
        pure ({ singleDay := { stats := singleDayStats, summary := singleDaySummary },
                trendData := trendData } : StatsResp)) s)

/-- A charge in the transaction-listing shape (`metadata` itself is not
re-modelled; its two tip keys live on `ChargeRec`). -/
structure TransactionRec where
  id : String
  amount : Int
  currency : String
  status : String
  created : Int
  customer : Option String
  payment_method : Option String
  receipt_url : Option String
  description : Option String
  receipt_email : Option String
  customerEmail : Option String
  customerName : Option String
  paid : Bool
  refunded : Bool
  tipAmount : Option Int
  tippingMethod : Option String
  baseAmount : Option Int
  deriving DecidableEq, Repr

/-- The per-charge mapping of `getTransactionsService`: tip details
derived as in grouping, `baseAmount = amount − tipAmount` (NaN
propagates). -/
def mapChargeToTransaction (c : ChargeRec) : TransactionRec :=
  let tipAmount := chargeTipAmount c
  let tippingMethod :=
    if jsTruthyStr c.metadata_tippingMethod then c.metadata_tippingMethod else none
  let baseAmount := jsSub (some c.amount) tipAmount
  { id := c.id
    amount := c.amount
    currency := c.currency
    status := c.status
    created := c.created
    customer := c.customer
    payment_method := c.payment_method
    receipt_url := c.receipt_url
    description := c.description
    receipt_email := jsOrElseStr c.receipt_email
      (jsOrElseStr c.billing_details_email c.metadata_customerEmail)
    customerEmail := jsOrElseStr c.billing_details_email c.metadata_customerEmail
    customerName := jsOrElseStr c.billing_details_name c.metadata_customerName
    paid := c.paid
    refunded := c.refunded || decide (c.amount_refunded > 0)
    tipAmount := tipAmount
    tippingMethod := tippingMethod
    baseAmount := baseAmount }

/-- Insertion step for `charges.sort((a, b) => b.created - a.created)`. -/
def insertByCreatedDesc (c : ChargeRec) : List ChargeRec → List ChargeRec
  | [] => [c]
  | x :: xs => if x.created < c.created then c :: x :: xs else x :: insertByCreatedDesc c xs

/-- Sort charges by creation time, newest first. -/
def sortByCreatedDesc (l : List ChargeRec) : List ChargeRec :=
  l.foldr insertByCreatedDesc []

/-- `getTransactionsService`: parse and validate the date, fetch the
day's charges, sort newest first, and map to the transaction shape. -/
def getTransactionsService (π : Platform) (date : Option String) (fuel : Nat) :
    M (List TransactionRec) :=
  catchWrap "Error getting transactions" (fun s =>
    match parseDateToUTC π.todayMidnightMs date with
    | none =>
      (.error { message := "Invalid date format. Use ISO date format (e.g., 2025-12-15)",
                statusCode := some 400, code := some "invalid-argument" }, s)
    | some selMs =>
      let dayStart := selMs
      let dayEnd := selMs + 86399999
      (do
        let charges ← fetchChargesFromStripeService π
          (Int.fdiv dayStart 1000) (Int.fdiv dayEnd 1000) fuel
        pure ((sortByCreatedDesc charges).map mapChargeToTransaction)) s)

/-! ## Controllers -/

/-- A 400 response built with `errorResponse(msg, 'invalid-argument')`. -/
def invalidArg (msg : String) : JsError :=
  { message := msg, statusCode := some 400, code := some "invalid-argument" }

/-- The cart-validation loop of `createPaymentIntentFromProducts`:
first structural error wins. -/
def validateCartItemsLoop : List CartItem → Nat → Option JsError
  | [], _ => none
  | item :: rest, i =>
    if jsTruthyStr (some item.priceId) = false then
      some (invalidArg ("cartItems[" ++ toString i ++ "].priceId is required and must be a string"))
    else if item.quantity ≤ 0 then
      some (invalidArg ("cartItems[" ++ toString i ++ "].quantity must be a positive number"))
    else validateCartItemsLoop rest (i + 1)

/-- The body of the intent-from-products request. -/
structure ProductsReq where
  cartItems : List CartItem := []
  customerDetails : CustomerDetails := {}
  tipAmount : Int := 0
  readerId : Option String := none
  connectionType : Option String := none
  locationId : Option String := none
  deriving DecidableEq, Repr

/-- The intent-from-products response. -/
structure ProductsResp where
  clientSecret : String
  paymentIntentId : String
  invoiceId : String
  deriving DecidableEq, Repr

/-- `createPaymentIntentFromProducts` (controller): structural cart and
tip validation before anything remote, then the linear pipeline —
customer, invoice, line items (with rollback), optional tip line item,
finalize, metadata, intent, best-effort attach. -/
def createPaymentIntentFromProducts (π : Platform) (userId : String)
    (req : ProductsReq) : M ProductsResp := fun s =>
  if req.cartItems.length = 0 then
    (.error (invalidArg "cartItems must be a non-empty array"), s)
  else
    match validateCartItemsLoop req.cartItems 0 with
    | some e => (.error e, s)
    | none =>
      if req.tipAmount ≠ 0 ∧ req.tipAmount < 0 then
        (.error (invalidArg "tipAmount must be a non-negative number"), s)
      else
        (do
          let _accountId ← validateStripeAccount π
          let _ ← ensureLocationTippingConfig π req.readerId req.connectionType req.locationId
          let customerId ← findOrCreateCustomerService π req.customerDetails
          let invoiceId ← createInvoiceService π (some customerId)
          let _itemIds ← createInvoiceItemsService π invoiceId (some customerId) req.cartItems
          let _ ← (if req.tipAmount > 0 then
              addTipLineItemService π invoiceId (some customerId) req.tipAmount
            else pure "")
          let finalizedInvoice ← finalizeInvoiceService π invoiceId
          let paymentMetadata := buildPaymentMetadata userId
            { invoiceId := some invoiceId, paymentType := some "products",
              tipAmount := if req.tipAmount > 0 then some req.tipAmount else none,
              tippingMethod := if req.tipAmount > 0 then some "app-based" else none }
            req.customerDetails
          let paymentIntent ← createPaymentIntentFromInvoiceService π
            finalizedInvoice paymentMetadata (some customerId)
          let _ ← tryIgnore (attachPaymentIntentToInvoiceService π
            finalizedInvoice.id paymentIntent.paymentIntentId)
          pure ({ clientSecret := paymentIntent.clientSecret,
                  paymentIntentId := paymentIntent.paymentIntentId,
                  invoiceId := finalizedInvoice.id } : ProductsResp)) s

/-- `createPaymentIntent` (controller, direct-amount intent): the amount
guard (`!amount || amount <= 0`) fires before any account or remote
work. -/
def createPaymentIntent (π : Platform) (userId : String) (amount : Option Int)
    (currency : Option String) (metadata : MetadataExtras) (cd : CustomerDetails)
    (readerId connectionType locationId : Option String) : M IntentResult := fun s =>
  match amount with
  | none => (.error (invalidArg "Amount must be greater than zero"), s)
  | some a =>
    if a ≤ 0 then (.error (invalidArg "Amount must be greater than zero"), s)
    else
      (do
        let accountId ← validateStripeAccount π
        let _ ← ensureLocationTippingConfig π readerId connectionType locationId
        let _ := accountId
        createPaymentIntentService π userId a (currency.getD "usd") metadata cd) s

/-- `getPaymentStats` (controller). -/
def getPaymentStats (π : Platform) (q : StatsQuery) (fuel : Nat) : M StatsResp := do
  let _accountId ← validateStripeAccount π
  getPaymentStatsService π q fuel

/-- `getTransactions` (controller): `date || null`. -/
def getTransactions (π : Platform) (date : Option String) (fuel : Nat) :
    M (List TransactionRec) := do
  let _accountId ← validateStripeAccount π
  getTransactionsService π (if jsTruthyStr date then date else none) fuel

/-- `createRefund` (controller): validate the charge id shape, fetch the
charge to compute the currently-refundable balance
(`charge.amount - (charge.amount_refunded || 0)`), validate the reason
enumeration, and refund the available amount (the caller-supplied
partial amount is commented out in the source). -/
def createRefund (π : Platform) (chargeId : Option String)
    (reason : Option String) : M RefundResp := fun s =>
  if jsTruthyStr chargeId = false then
    (.error (invalidArg "chargeId is required and must be a string"), s)
  else
    (do
      let _accountId ← validateStripeAccount π
      let charge ← getChargeService π (chargeId.getD "")
      let availableAmount := charge.amount - charge.amount_refunded
      (fun s2 =>
        if jsTruthyStr reason ∧
            ¬(reason = some "duplicate" ∨ reason = some "fraudulent" ∨
              reason = some "requested_by_customer") then
          (.error (invalidArg "Reason must be one of: duplicate, fraudulent, requested_by_customer"), s2)
        else
          createRefundService π (chargeId.getD "") (some availableAmount)
            (if jsTruthyStr reason then reason else none) s2 : M RefundResp)) s

/-! ## General lemmas -/

theorem foldl_add_map_sum {α M : Type} [AddCommMonoid M] (f : α → M) :
    ∀ (l : List α) (init : M), l.foldl (fun s b => s + f b) init = init + (l.map f).sum := by
  intro l
  induction l with
  | nil => intro init; simp
  | cons x xs ih =>
    intro init
    simp only [List.foldl_cons, List.map_cons, List.sum_cons, ih]
    rw [add_assoc]

theorem jsOrNum_zero (x : Option Int) : jsOrNum x 0 = x.getD 0 := by
  cases x with
  | none => rfl
  | some v =>
    simp only [jsOrNum, Option.getD_some]
    split <;> omega

/-! ## C5: summary derivation -/

/-- C5. For every bucket sequence (whose tip totals are actual numbers,
not NaN), the computed summary satisfies `totalPayments = Σ count`,
`totalAmount = Σ totalAmount`, `totalTips = Σ totalTips`, and
`averageAmount = round(totalAmount / totalPayments)` when
`totalPayments > 0` and `0` otherwise; the summary is a function of the
bucket sequence alone. -/
theorem calculateSummary_spec (stats : List StatBucket)
    (_h : ∀ b ∈ stats, b.totalTips ≠ none) :
    calculateSummaryService stats =
      { totalPayments := (stats.map (fun b => b.count)).sum
        totalAmount := (stats.map (fun b => b.totalAmount)).sum
        totalTips := (stats.map (fun b => b.totalTips.getD 0)).sum
        averageAmount :=
          if 0 < (stats.map (fun b => b.count)).sum then
            jsMathRoundDiv ((stats.map (fun b => b.totalAmount)).sum)
              ((stats.map (fun b => b.count)).sum)
          else 0 } := by
  unfold calculateSummaryService
  simp only [foldl_add_map_sum, jsOrNum_zero, Nat.zero_add, zero_add]

/-- Witness for C5 at a concrete two-bucket sequence. -/
theorem calculateSummary_spec_witness :
    (∀ b ∈ ([{ date := 0, count := 2, totalAmount := 1000, successful := 2, failed := 0,
               totalTips := some 100 },
             { date := 1, count := 1, totalAmount := 250, successful := 0, failed := 1,
               totalTips := some 0 }] : List StatBucket), b.totalTips ≠ none) ∧
    calculateSummaryService
        [{ date := 0, count := 2, totalAmount := 1000, successful := 2, failed := 0,
           totalTips := some 100 },
         { date := 1, count := 1, totalAmount := 250, successful := 0, failed := 1,
           totalTips := some 0 }] =
      { totalPayments := 3, totalAmount := 1250, averageAmount := 417, totalTips := 100 } := by
  refine ⟨by decide, ?_⟩
  have h := calculateSummary_spec
    [{ date := 0, count := 2, totalAmount := 1000, successful := 2, failed := 0,
       totalTips := some 100 },
     { date := 1, count := 1, totalAmount := 250, successful := 0, failed := 1,
       totalTips := some 0 }] (by decide)
  rw [h]
  decide

/-! ## C3: day-filling -/

theorem dayOfMs_mul (d : Int) : dayOfMs (d * msPerDay) = d := by
  unfold dayOfMs
  exact Int.mul_fdiv_cancel d (by norm_num [msPerDay])

theorem range_map_shift {α : Type} (g : Int → α) (d1 : Int) (n : Nat) :
    (List.range (n + 1)).map (fun (k : Nat) => g (d1 + (k : Int))) =
      g d1 :: (List.range n).map (fun (k : Nat) => g (d1 + 1 + (k : Int))) := by
  rw [List.range_succ_eq_map]
  simp only [List.map_cons, Nat.cast_zero, add_zero, List.map_map]
  congr 1
  apply List.map_congr_left
  intro k _
  simp only [Function.comp_apply]
  congr 1
  push_cast
  ring

/-- Closed form of the day-filling loop: starting at the midnight of day
`d1` and ending anywhere inside day `d1 + n`, it produces exactly the
lookup-or-zero buckets of days `d1, d1+1, …, d1+n`. -/
theorem fillMissingDays_eq (sb : Int → Option StatBucket) :
    ∀ (n : Nat) (d1 off : Int), 0 ≤ off → off < (msPerDay : Int) →
    fillMissingDaysService sb (d1 * msPerDay) (d1 * msPerDay + (n : Int) * msPerDay + off) =
      (List.range (n + 1)).map
        (fun (k : Nat) => (sb (d1 + (k : Int))).getD (zeroBucket (d1 + (k : Int)))) := by
  intro n
  induction n with
  | zero =>
    intro d1 off h0 hK
    rw [fillMissingDaysService, dif_pos (by push_cast; omega)]
    rw [fillMissingDaysService, dif_neg (by push_cast; omega)]
    rw [dayOfMs_mul,
      range_map_shift (fun x => (sb x).getD (zeroBucket x)) d1 0]
    simp
  | succ n ih =>
    intro d1 off h0 hK
    rw [fillMissingDaysService,
      dif_pos (by push_cast; have := Int.natCast_nonneg msPerDay; nlinarith [Int.natCast_nonneg n, Int.natCast_nonneg msPerDay])]
    rw [dayOfMs_mul,
      range_map_shift (fun x => (sb x).getD (zeroBucket x)) d1 (n + 1)]
    congr 1
    have := ih (d1 + 1) off h0 hK
    rw [show (d1 + 1) * (msPerDay : Int) = d1 * msPerDay + msPerDay by ring] at this
    rw [show d1 * (msPerDay : Int) + msPerDay + ((n : Nat) : Int) * msPerDay + off =
        d1 * msPerDay + (((n : Nat) + 1 : Nat) : Int) * msPerDay + off by push_cast; ring] at this
    exact this

/-- C3. Day-filling is total: for start day `d1` and end instant inside
day `d2` with `d1 ≤ d2`, and any sparse bucket map, the filled sequence
has exactly the inclusive day count of entries, every UTC calendar day
in `[d1, d2]` appears exactly once in ascending order, and a day absent
from the map yields an all-zero bucket (count, totalAmount, successful,
failed and totalTips all zero). -/
theorem fillMissingDays_spec (sb : Int → Option StatBucket) (d1 d2 off : Int)
    (h12 : d1 ≤ d2) (h0 : 0 ≤ off) (hK : off < (msPerDay : Int)) :
    fillMissingDaysService sb (d1 * msPerDay) (d2 * msPerDay + off) =
      (List.range ((d2 - d1).toNat + 1)).map
        (fun (k : Nat) => (sb (d1 + (k : Int))).getD (zeroBucket (d1 + (k : Int)))) ∧
    (fillMissingDaysService sb (d1 * msPerDay) (d2 * msPerDay + off)).length =
        (d2 - d1).toNat + 1 ∧
    (∀ d : Int, d1 ≤ d → d ≤ d2 → sb d = none →
        ({ date := d, count := 0, totalAmount := 0, successful := 0, failed := 0,
           totalTips := some 0 } : StatBucket) ∈
          fillMissingDaysService sb (d1 * msPerDay) (d2 * msPerDay + off)) := by
  have hend : d2 * (msPerDay : Int) + off =
      d1 * msPerDay + ((d2 - d1).toNat : Int) * msPerDay + off := by
    have : ((d2 - d1).toNat : Int) = d2 - d1 := Int.toNat_of_nonneg (by omega)
    rw [this]; ring
  rw [hend, fillMissingDays_eq sb ((d2 - d1).toNat) d1 off h0 hK]
  refine ⟨rfl, by rw [List.length_map, List.length_range], ?_⟩
  intro d hd1 hd2 hnone
  simp only [List.mem_map, List.mem_range]
  refine ⟨(d - d1).toNat, by omega, ?_⟩
  have hdk : d1 + ((d - d1).toNat : Int) = d := by
    have : ((d - d1).toNat : Int) = d - d1 := Int.toNat_of_nonneg (by omega)
    omega
  rw [hdk, hnone]
  rfl

/-- Witness for C3: three days, the middle one present in the map. -/
theorem fillMissingDays_spec_witness :
    (0 : Int) ≤ 2 ∧ (0 : Int) ≤ 0 ∧ (0 : Int) < msPerDay ∧
    (fillMissingDaysService
        (fun d => if d = 1 then some { date := 1, count := 3, totalAmount := 500,
                                       successful := 2, failed := 1, totalTips := some 40 }
                  else none)
        (0 * msPerDay) (2 * msPerDay + 0) =
      [{ date := 0, count := 0, totalAmount := 0, successful := 0, failed := 0,
         totalTips := some 0 },
       { date := 1, count := 3, totalAmount := 500, successful := 2, failed := 1,
         totalTips := some 40 },
       { date := 2, count := 0, totalAmount := 0, successful := 0, failed := 0,
         totalTips := some 0 }]) := by
  refine ⟨by norm_num, by norm_num, by norm_num [msPerDay], ?_⟩
  have h := (fillMissingDays_spec
    (fun d => if d = 1 then some { date := 1, count := 3, totalAmount := 500,
                                   successful := 2, failed := 1, totalTips := some 40 }
              else none)
    0 2 0 (by norm_num) (by norm_num) (by norm_num [msPerDay])).1
  rw [h]
  decide

/-! ## C4: grouping and the count/amount invariants -/

theorem bucket_foldl_count (l : List ChargeRec) :
    ∀ b : StatBucket, (l.foldl addChargeToBucket b).count = b.count + l.length := by
  induction l with
  | nil => intro b; simp
  | cons c cs ih =>
    intro b
    simp only [List.foldl_cons, List.length_cons, ih, addChargeToBucket]
    omega

theorem bucket_foldl_totalAmount (l : List ChargeRec) :
    ∀ b : StatBucket, (l.foldl addChargeToBucket b).totalAmount =
      b.totalAmount + (l.map (fun c => c.amount)).sum := by
  induction l with
  | nil => intro b; simp
  | cons c cs ih =>
    intro b
    simp only [List.foldl_cons, List.map_cons, List.sum_cons, ih, addChargeToBucket]
    ring

theorem bucket_foldl_date (l : List ChargeRec) :
    ∀ b : StatBucket, (l.foldl addChargeToBucket b).date = b.date := by
  induction l with
  | nil => intro b; rfl
  | cons c cs ih =>
    intro b
    simp only [List.foldl_cons, ih, addChargeToBucket]

/-- Per-key evolution of the grouping fold: the key `d` sees exactly the
charges of day `d`, each applied as lookup-or-zero update. -/
theorem group_go (d : Int) :
    ∀ (cs : List ChargeRec) (m : Int → Option StatBucket),
    (cs.foldl
      (fun m c =>
        let dc := chargeDay c
        let b := (m dc).getD (zeroBucket dc)
        fun d2 => if d2 = dc then some (addChargeToBucket b c) else m d2)
      m) d =
    (cs.filter (fun c => chargeDay c = d)).foldl
      (fun ob c => some (addChargeToBucket (ob.getD (zeroBucket d)) c)) (m d) := by
  intro cs
  induction cs with
  | nil => intro m; rfl
  | cons c cs ih =>
    intro m
    by_cases hd : chargeDay c = d
    · rw [List.foldl_cons, ih, List.filter_cons_of_pos (by simpa using hd)]
      rw [List.foldl_cons]
      congr 1
      simp [hd]
    · rw [List.foldl_cons, ih, List.filter_cons_of_neg (by simpa using hd)]
      congr 1
      simp [if_neg (by omega : ¬ d = chargeDay c)]

theorem option_foldl_some (l : List ChargeRec) (d : Int) :
    ∀ b : StatBucket,
    l.foldl (fun ob c => some (addChargeToBucket (ob.getD (zeroBucket d)) c)) (some b) =
      some (l.foldl addChargeToBucket b) := by
  induction l with
  | nil => intro b; rfl
  | cons c cs ih => intro b; rw [List.foldl_cons, List.foldl_cons, ih]; rfl

/-- Closed form of one grouping-map lookup: `none` exactly when no
charge falls on the day, else the fold of that day's charges over the
all-zero bucket. -/
theorem group_lookup (charges : List ChargeRec) (d : Int) :
    groupChargesByDateService charges d =
      match charges.filter (fun c => chargeDay c = d) with
      | [] => none
      | l => some (l.foldl addChargeToBucket (zeroBucket d)) := by
  unfold groupChargesByDateService
  rw [group_go]
  cases h : charges.filter (fun c => chargeDay c = d) with
  | nil => rfl
  | cons c cs =>
    rw [List.foldl_cons, Option.getD_none, option_foldl_some]
    rfl

/-- The lookup-or-zero bucket of a day has that day's charge count. -/
theorem entry_count (charges : List ChargeRec) (d : Int) :
    ((groupChargesByDateService charges d).getD (zeroBucket d)).count =
      (charges.filter (fun c => chargeDay c = d)).length := by
  rw [group_lookup]
  cases h : charges.filter (fun c => chargeDay c = d) with
  | nil => rfl
  | cons c cs =>
    simp only [Option.getD_some, List.foldl_cons, List.length_cons,
      bucket_foldl_count, addChargeToBucket, zeroBucket]
    omega

/-- The lookup-or-zero bucket of a day has that day's amount sum. -/
theorem entry_totalAmount (charges : List ChargeRec) (d : Int) :
    ((groupChargesByDateService charges d).getD (zeroBucket d)).totalAmount =
      ((charges.filter (fun c => chargeDay c = d)).map (fun c => c.amount)).sum := by
  rw [group_lookup]
  cases h : charges.filter (fun c => chargeDay c = d) with
  | nil => simp [zeroBucket]
  | cons c cs =>
    simp only [Option.getD_some, List.foldl_cons, List.map_cons, List.sum_cons,
      bucket_foldl_totalAmount, addChargeToBucket, zeroBucket]
    ring

/-- The lookup-or-zero bucket of a day is keyed by that day. -/
theorem entry_date (charges : List ChargeRec) (d : Int) :
    ((groupChargesByDateService charges d).getD (zeroBucket d)).date = d := by
  rw [group_lookup]
  cases h : charges.filter (fun c => chargeDay c = d) with
  | nil => rfl
  | cons c cs =>
    simp only [Option.getD_some, List.foldl_cons, bucket_foldl_date,
      addChargeToBucket, zeroBucket]

theorem map_sum_add {α : Type} (l : List α) (f g : α → Nat) :
    (l.map (fun x => f x + g x)).sum = (l.map f).sum + (l.map g).sum := by
  induction l with
  | nil => rfl
  | cons x xs ih => simp only [List.map_cons, List.sum_cons, ih]; omega

theorem sum_indicator_range_zero (x : Int) :
    ∀ (n : Nat) (d1 : Int), x < d1 →
    ((List.range n).map (fun (k : Nat) => if x = d1 + (k : Int) then (1 : Nat) else 0)).sum = 0 := by
  intro n
  induction n with
  | zero => intro d1 _; rfl
  | succ n ih =>
    intro d1 hx
    rw [range_map_shift (fun y => if x = y then (1 : Nat) else 0) d1 n]
    rw [List.sum_cons, if_neg (by omega), ih (d1 + 1) (by omega)]

theorem sum_indicator_range_one (x : Int) :
    ∀ (n : Nat) (d1 : Int), d1 ≤ x → x ≤ d1 + (n : Int) →
    ((List.range (n + 1)).map (fun (k : Nat) => if x = d1 + (k : Int) then (1 : Nat) else 0)).sum = 1 := by
  intro n
  induction n with
  | zero =>
    intro d1 h1 h2
    have : x = d1 := by push_cast at h2; omega
    subst this
    simp [List.range_succ]
  | succ n ih =>
    intro d1 h1 h2
    rw [range_map_shift (fun y => if x = y then (1 : Nat) else 0) d1 (n + 1)]
    rw [List.sum_cons]
    by_cases hx : x = d1
    · rw [if_pos hx, sum_indicator_range_zero x (n + 1) (d1 + 1) (by omega)]
    · rw [if_neg hx, ih (d1 + 1) (by omega) (by push_cast at h2 ⊢; omega)]

/-- Day-indexed counting: when every charge's day lies in
`[d1, d1 + n]`, the per-day filtered counts sum to the total count. -/
theorem sum_filter_length (n : Nat) (d1 : Int) :
    ∀ (charges : List ChargeRec),
    (∀ c ∈ charges, d1 ≤ chargeDay c ∧ chargeDay c ≤ d1 + (n : Int)) →
    ((List.range (n + 1)).map
      (fun (k : Nat) => (charges.filter (fun c => chargeDay c = d1 + (k : Int))).length)).sum =
      charges.length := by
  intro charges
  induction charges with
  | nil =>
    intro _
    rw [List.length_nil]
    apply List.sum_eq_zero
    intro x hx
    simp only [List.mem_map] at hx
    obtain ⟨k, _, hk⟩ := hx
    simp [← hk]
  | cons c cs ih =>
    intro hall
    have hc := hall c (by simp)
    have hcs : ∀ x ∈ cs, d1 ≤ chargeDay x ∧ chargeDay x ≤ d1 + (n : Int) :=
      fun x hx => hall x (by simp [hx])
    have hsplit : ∀ (k : Nat),
        ((c :: cs).filter (fun x => chargeDay x = d1 + (k : Int))).length =
        (if chargeDay c = d1 + (k : Int) then 1 else 0) +
          (cs.filter (fun x => chargeDay x = d1 + (k : Int))).length := by
      intro k
      by_cases h : chargeDay c = d1 + (k : Int)
      · rw [List.filter_cons_of_pos (by simpa using h), if_pos h, List.length_cons]
        omega
      · rw [List.filter_cons_of_neg (by simpa using h), if_neg h]
        omega
    calc ((List.range (n + 1)).map
            (fun (k : Nat) => ((c :: cs).filter (fun x => chargeDay x = d1 + (k : Int))).length)).sum
        = ((List.range (n + 1)).map
            (fun (k : Nat) => (if chargeDay c = d1 + (k : Int) then 1 else 0) +
              (cs.filter (fun x => chargeDay x = d1 + (k : Int))).length)).sum := by
          congr 1
          exact List.map_congr_left (fun k _ => hsplit k)
      _ = ((List.range (n + 1)).map
            (fun (k : Nat) => if chargeDay c = d1 + (k : Int) then 1 else 0)).sum +
          ((List.range (n + 1)).map
            (fun (k : Nat) => (cs.filter (fun x => chargeDay x = d1 + (k : Int))).length)).sum := by
          apply map_sum_add
      _ = 1 + cs.length := by
          rw [sum_indicator_range_one (chargeDay c) n d1 hc.1 hc.2, ih hcs]
      _ = (c :: cs).length := by simp [List.length_cons]; omega

/-- C4. For charges whose days all lie in `[d1, d2]`, after grouping by
UTC day and filling the same range, the filled buckets' counts sum to
the number of charges, and each bucket's `totalAmount` is the sum of
`charge.amount` over that day's charges. -/
theorem groupFill_invariants (charges : List ChargeRec) (d1 d2 off : Int)
    (h12 : d1 ≤ d2) (h0 : 0 ≤ off) (hK : off < (msPerDay : Int))
    (hdays : ∀ c ∈ charges, d1 ≤ chargeDay c ∧ chargeDay c ≤ d2) :
    ((fillMissingDaysService (groupChargesByDateService charges)
        (d1 * msPerDay) (d2 * msPerDay + off)).map (fun b => b.count)).sum =
      charges.length ∧
    ∀ b ∈ fillMissingDaysService (groupChargesByDateService charges)
        (d1 * msPerDay) (d2 * msPerDay + off),
      b.totalAmount =
        ((charges.filter (fun c => chargeDay c = b.date)).map (fun c => c.amount)).sum := by
  have hfill := (fillMissingDays_spec (groupChargesByDateService charges) d1 d2 off
    h12 h0 hK).1
  have hn : d1 + ((d2 - d1).toNat : Int) = d2 := by
    have := Int.toNat_of_nonneg (show (0 : Int) ≤ d2 - d1 by omega)
    omega
  constructor
  · rw [hfill, List.map_map]
    have : ∀ (k : Nat), k ∈ List.range ((d2 - d1).toNat + 1) →
        ((fun b => StatBucket.count b) ∘ fun (k : Nat) =>
          (groupChargesByDateService charges (d1 + (k : Int))).getD
            (zeroBucket (d1 + (k : Int)))) k =
        (charges.filter (fun c => chargeDay c = d1 + (k : Int))).length := by
      intro k _
      exact entry_count charges (d1 + (k : Int))
    rw [List.map_congr_left this]
    exact sum_filter_length ((d2 - d1).toNat) d1 charges
      (fun c hc => ⟨(hdays c hc).1, by rw [hn]; exact (hdays c hc).2⟩)
  · intro b hb
    rw [hfill] at hb
    simp only [List.mem_map, List.mem_range] at hb
    obtain ⟨k, _, hk⟩ := hb
    subst hk
    rw [entry_date, entry_totalAmount]

/-- Witness for C4: two charges on day 0, one on day 1, filled over
days 0–2. -/
theorem groupFill_invariants_witness :
    (0 : Int) ≤ 2 ∧
    (∀ c ∈ ([{ id := "ch_1", created := 3600, amount := 1000, currency := "usd",
               status := "succeeded", paid := true },
             { id := "ch_2", created := 7200, amount := 250, currency := "usd",
               status := "failed", paid := false },
             { id := "ch_3", created := 86400 + 60, amount := 700, currency := "usd",
               status := "succeeded", paid := true }] : List ChargeRec),
        (0 : Int) ≤ chargeDay c ∧ chargeDay c ≤ 2) ∧
    ((fillMissingDaysService
        (groupChargesByDateService
          [{ id := "ch_1", created := 3600, amount := 1000, currency := "usd",
             status := "succeeded", paid := true },
           { id := "ch_2", created := 7200, amount := 250, currency := "usd",
             status := "failed", paid := false },
           { id := "ch_3", created := 86400 + 60, amount := 700, currency := "usd",
             status := "succeeded", paid := true }])
        (0 * msPerDay) (2 * msPerDay + 0)).map (fun b => b.count)).sum = 3 := by
  refine ⟨by norm_num, by decide, ?_⟩
  have h := (groupFill_invariants
    [{ id := "ch_1", created := 3600, amount := 1000, currency := "usd",
       status := "succeeded", paid := true },
     { id := "ch_2", created := 7200, amount := 250, currency := "usd",
       status := "failed", paid := false },
     { id := "ch_3", created := 86400 + 60, amount := 700, currency := "usd",
       status := "succeeded", paid := true }]
    0 2 0 (by norm_num) (by norm_num) (by norm_num [msPerDay]) (by decide)).1
  rw [h]
  rfl

/-! ## C2: pagination completeness -/

/-- The list suffix a cursor denotes (proof apparatus for the loop
invariant): no cursor means the full list. -/
def cursorRest (all : List ChargeRec) : Option String → List ChargeRec
  | none => all
  | some cur => afterId cur all

theorem afterId_append (a : ChargeRec) :
    ∀ (l1 l2 : List ChargeRec),
    (((l1 ++ a :: l2).map (fun c => c.id)).Nodup) →
    afterId a.id (l1 ++ a :: l2) = l2 := by
  intro l1
  induction l1 with
  | nil =>
    intro l2 _
    simp [afterId]
  | cons b l1 ih =>
    intro l2 hnd
    have hmem : a.id ∈ ((l1 ++ a :: l2).map (fun c => c.id)) := by
      simp
    have hne : b.id ≠ a.id := by
      rw [List.cons_append, List.map_cons, List.nodup_cons] at hnd
      intro heq
      exact hnd.1 (heq ▸ hmem)
    rw [List.cons_append, afterId, if_neg hne]
    exact ih l2 (by rw [List.cons_append, List.map_cons, List.nodup_cons] at hnd; exact hnd.2)

theorem fetchChargesGo_complete (π : Platform) (all : List ChargeRec)
    (hfail : π.listChargesFails = none)
    (hnodup : (all.map (fun c => c.id)).Nodup) :
    ∀ (fuel : Nat) (cursor : Option String) (acc pre rest : List ChargeRec) (s : PState),
    all = pre ++ rest → cursorRest all cursor = rest → rest.length < fuel →
    (fetchChargesGo π all fuel cursor acc s).1 = .ok (acc ++ rest) := by
  intro fuel
  induction fuel with
  | zero => intro cursor acc pre rest s _ _ hlen; omega
  | succ fuel ih =>
    intro cursor acc pre rest s hall hcur hlen
    have hpage : stripeListPage all 100 cursor =
        (rest.take 100, decide (100 < rest.length)) := by
      unfold stripeListPage
      cases cursor with
      | none => simpa [cursorRest] using congrArg (fun r => (r.take 100, decide (100 < r.length))) hcur
      | some cur => simpa [cursorRest] using congrArg (fun r => (r.take 100, decide (100 < r.length))) hcur
    by_cases h100 : 100 < rest.length
    · have htk : (rest.take 100).length = 100 := by
        rw [List.length_take]; omega
      have htkne : rest.take 100 ≠ [] := by
        intro hh; rw [hh] at htk; simp at htk
      have hlast : rest.take 100 = (rest.take 100).dropLast ++
          [(rest.take 100).getLastD default] := by
        rw [List.getLastD_eq_getLast?, List.getLast?_eq_getLast _ htkne]
        simp [List.dropLast_append_getLast htkne]
      have hdecomp : all = (pre ++ (rest.take 100).dropLast) ++
          ((rest.take 100).getLastD default) :: rest.drop 100 := by
        conv_lhs => rw [hall, ← List.take_append_drop 100 rest]
        conv_lhs => rw [hlast]
        simp
      have hafter : afterId ((rest.take 100).getLastD default).id all = rest.drop 100 := by
        rw [hdecomp]
        exact afterId_append _ _ _ (by rw [← hdecomp]; exact hnodup)
      have := ih (some ((rest.take 100).getLastD default).id)
        (acc ++ rest.take 100) (pre ++ rest.take 100) (rest.drop 100) (bumpRemote s)
        (by rw [hall, ← List.take_append_drop 100 rest]; simp)
        (by simpa [cursorRest] using hafter)
        (by rw [List.length_drop]; omega)
      show (fetchChargesGo π all (fuel + 1) cursor acc s).1 = _
      unfold fetchChargesGo
      rw [hfail]
      simp only [hpage]
      rw [if_pos (by constructor <;> simp [h100, htkne])]
      rw [this]
      rw [List.append_assoc, List.take_append_drop]
    · have htk : rest.take 100 = rest := List.take_of_length_le (by omega)
      show (fetchChargesGo π all (fuel + 1) cursor acc s).1 = _
      unfold fetchChargesGo
      rw [hfail]
      simp only [hpage]
      rw [if_neg (by simp [h100])]
      rw [htk]

/-- C2. Against an honest upstream (distinct charge ids, no injected
list failure), the charge-fetch pagination — pages of size at most 100,
cursor = last item's id while the upstream reports more — returns the
complete charge list of the interval, however many pages are needed. -/
theorem fetchCharges_complete (π : Platform) (gte lte : Int) (fuel : Nat) (s : PState)
    (hfail : π.listChargesFails = none)
    (hnodup : ((π.chargesInRange gte lte).map (fun c => c.id)).Nodup)
    (hfuel : (π.chargesInRange gte lte).length < fuel) :
    (fetchChargesFromStripeService π gte lte fuel s).1 =
      .ok (π.chargesInRange gte lte) ∧
    ∀ cursor, ((stripeListPage (π.chargesInRange gte lte) 100 cursor).1).length ≤ 100 := by
  constructor
  · have := fetchChargesGo_complete π (π.chargesInRange gte lte) hfail hnodup
      fuel none [] [] (π.chargesInRange gte lte) s rfl rfl hfuel
    simpa [fetchChargesFromStripeService] using this
  · intro cursor
    unfold stripeListPage
    cases cursor <;> simp [List.length_take]

/-- Witness for C2: three charges fetched in one run (fuel 4). -/
theorem fetchCharges_complete_witness :
    (let π : Platform :=
      { chargesInRange := fun _ _ =>
          [{ id := "ch_a", created := 10, amount := 1, currency := "usd",
             status := "succeeded", paid := true },
           { id := "ch_b", created := 20, amount := 2, currency := "usd",
             status := "succeeded", paid := true },
           { id := "ch_c", created := 30, amount := 3, currency := "usd",
             status := "failed", paid := false }] }
     (fetchChargesFromStripeService π 0 86399 4 {}).1 =
       .ok (π.chargesInRange 0 86399)) := by
  exact (fetchCharges_complete _ 0 86399 4 {} rfl (by decide) (by decide)).1

/-! ## C8: tip derivation and baseAmount -/

/-- C8 counterexample. A charge whose `metadata.tipAmount` key is
present but holds the empty string: the key is present, yet the derived
tip is the platform field (50), not the integer parse of the metadata
value (`parseInt("") = NaN`) — JS truthiness, not presence, decides. -/
theorem chargeTip_metadata_presence_cex :
    (let c : ChargeRec :=
      { id := "ch_cex", created := 0, amount := 1000, currency := "usd",
        status := "succeeded", paid := true,
        metadata_tipAmount := some "", amount_details_tip := some 50 }
     c.metadata_tipAmount.isSome = true ∧
     chargeTipAmount c = some 50 ∧
     chargeTipAmount c ≠ jsParseInt "" ∧
     (mapChargeToTransaction c).tipAmount = some 50) := by
  decide

/-- C8 (amended). The derived tip equals the integer parse of
`charge.metadata.tipAmount` whenever that key is present with a
non-empty value; otherwise it is the platform tip sub-field when
present, else 0 (non-empty metadata wins over the platform field); and
in the transaction mapping used by the listing, `tipAmount` is exactly
this derivation and `baseAmount = charge.amount − tipAmount`
(NaN-propagating). -/
theorem chargeTip_spec (c : ChargeRec) :
    (∀ s, c.metadata_tipAmount = some s → s ≠ "" →
      chargeTipAmount c = jsParseInt s) ∧
    ((c.metadata_tipAmount = none ∨ c.metadata_tipAmount = some "") →
      chargeTipAmount c = some (jsOrNum c.amount_details_tip 0)) ∧
    (mapChargeToTransaction c).tipAmount = chargeTipAmount c ∧
    (mapChargeToTransaction c).amount = c.amount ∧
    (mapChargeToTransaction c).baseAmount = jsSub (some c.amount) (chargeTipAmount c) := by
  refine ⟨?_, ?_, rfl, rfl, rfl⟩
  · intro s hs hne
    rw [chargeTipAmount, hs]
    simp [hne]
  · intro h
    cases h with
    | inl h => rw [chargeTipAmount, h]
    | inr h => rw [chargeTipAmount, h]; simp

/-- Witness for C8 at two concrete charges: metadata tip "12" wins over
a platform tip of 50; with no metadata key the platform tip is used. -/
theorem chargeTip_spec_witness :
    chargeTipAmount
      { id := "ch_m", created := 0, amount := 1000, currency := "usd",
        status := "succeeded", paid := true,
        metadata_tipAmount := some "12", amount_details_tip := some 50 } = jsParseInt "12" ∧
    chargeTipAmount
      { id := "ch_p", created := 0, amount := 1000, currency := "usd",
        status := "succeeded", paid := true,
        metadata_tipAmount := none, amount_details_tip := some 50 } =
      some (jsOrNum (some 50) 0) ∧
    (mapChargeToTransaction
      { id := "ch_m", created := 0, amount := 1000, currency := "usd",
        status := "succeeded", paid := true,
        metadata_tipAmount := some "12", amount_details_tip := some 50 }).baseAmount =
      some 988 := by
  refine ⟨(chargeTip_spec _).1 "12" rfl (by decide), (chargeTip_spec _).2.1 (Or.inl rfl), ?_⟩
  have h := (chargeTip_spec
    { id := "ch_m", created := 0, amount := 1000, currency := "usd",
      status := "succeeded", paid := true,
      metadata_tipAmount := some "12", amount_details_tip := some 50 }).2.2.2.2
  rw [h]
  decide

/-! ## C7 and C10: refund orchestration -/

theorem validateStripeAccount_ok (π : Platform) (u : UserRow) (s : PState)
    (huser : π.userRow = some u)
    (hconn : jsTruthyStr u.stripeAccountId = true)
    (hactive : u.stripeAccountStatus = "active") :
    validateStripeAccount π s = (.ok (u.stripeAccountId.getD ""), s) := by
  unfold validateStripeAccount
  rw [huser]
  simp [hconn, hactive]

theorem getChargeService_ok (π : Platform) (cid : String) (charge : ChargeRec)
    (s : PState) (hcharge : π.retrieveCharge cid = .ok charge) :
    getChargeService π cid s =
      (.ok charge, { bumpRemote s with chargeRetrievals := s.chargeRetrievals + 1 }) := by
  unfold getChargeService
  rw [hcharge]

/-- C7. With a valid charge id, connected active account, and an
accepted (or absent) reason, the refund is issued for exactly the
charge's currently-refundable balance `amount − amount_refunded` (the
request sent carries exactly that amount — no caller-supplied amount
exists in the flow), and the response carries the platform refund's id,
amount, currency, status, source charge id, creation time and reason. -/
theorem createRefund_full_balance (π : Platform) (cid : String) (reason : Option String)
    (u : UserRow) (charge : ChargeRec) (s : PState)
    (hcid : cid ≠ "")
    (huser : π.userRow = some u)
    (hconn : jsTruthyStr u.stripeAccountId = true)
    (hactive : u.stripeAccountStatus = "active")
    (hcharge : π.retrieveCharge cid = .ok charge)
    (hpos : 0 < charge.amount - charge.amount_refunded)
    (hreason : reason = none ∨ reason = some "duplicate" ∨ reason = some "fraudulent" ∨
      reason = some "requested_by_customer") :
    (createRefund π (some cid) reason s).2.refundRequests =
      s.refundRequests ++
        [{ charge := cid, amount := some (charge.amount - charge.amount_refunded),
           reason := reason }] ∧
    ∀ r : RefundObj,
      π.refundResult
        { charge := cid, amount := some (charge.amount - charge.amount_refunded),
          reason := reason } = .ok r →
      (createRefund π (some cid) reason s).1 =
        .ok { id := r.id, amount := r.amount, currency := r.currency,
              status := r.status, charge := r.charge, created := r.created,
              reason := r.reason } := by
  have hrun : createRefund π (some cid) reason s =
      createRefundService π cid (some (charge.amount - charge.amount_refunded))
        (if jsTruthyStr reason then reason else none)
        { bumpRemote s with chargeRetrievals := s.chargeRetrievals + 1 } := by
    unfold createRefund
    rw [if_neg (by simp [jsTruthyStr, hcid])]
    rw [bind_eq_mBind, mBind_ok _ (validateStripeAccount_ok π u s huser hconn hactive)]
    simp only [Option.getD_some]
    rw [bind_eq_mBind, mBind_ok _ (getChargeService_ok π cid charge s hcharge)]
    rw [if_neg (by rcases hreason with h | h | h | h <;> subst h <;> simp [jsTruthyStr])]
  have hnorm : (if jsTruthyStr reason then reason else none) = reason := by
    rcases hreason with h | h | h | h <;> subst h <;> simp [jsTruthyStr]
  have hwa : refundAmountParam (some (charge.amount - charge.amount_refunded)) =
      some (charge.amount - charge.amount_refunded) := by
    simp [refundAmountParam, hpos]
  have hwr : refundReasonParam reason = reason := by
    rcases hreason with h | h | h | h <;> subst h <;> simp [refundReasonParam]
  rw [hrun, hnorm]
  unfold createRefundService
  rw [hwa, hwr]
  constructor
  · cases hres : π.refundResult
      { charge := cid, amount := some (charge.amount - charge.amount_refunded),
        reason := reason } <;> simp [hres, bumpRemote]
  · intro r hres
    dsimp only
    rw [hres]

/-- Witness for C7: the spec's scenario — amount 1000, already refunded
300, refund request sent for exactly 700. -/
theorem createRefund_full_balance_witness :
    (let π : Platform :=
      { userRow := some { stripeAccountId := some "acct_1", stripeAccountStatus := "active" },
        retrieveCharge := fun _ =>
          .ok { id := "ch_1", created := 0, amount := 1000, currency := "usd",
                status := "succeeded", paid := true, amount_refunded := 300 } }
     (createRefund π (some "ch_1") (some "duplicate") {}).2.refundRequests =
       [{ charge := "ch_1", amount := some 700, reason := some "duplicate" }]) := by
  have h := (createRefund_full_balance
    { userRow := some { stripeAccountId := some "acct_1", stripeAccountStatus := "active" },
      retrieveCharge := fun _ =>
        .ok { id := "ch_1", created := 0, amount := 1000, currency := "usd",
              status := "succeeded", paid := true, amount_refunded := 300 } }
    "ch_1" (some "duplicate")
    { stripeAccountId := some "acct_1", stripeAccountStatus := "active" }
    { id := "ch_1", created := 0, amount := 1000, currency := "usd",
      status := "succeeded", paid := true, amount_refunded := 300 }
    {} (by decide) rfl (by decide) rfl rfl (by decide) (by simp)).1
  simpa using h

/-- C10. When the charge's refundable balance is zero
(`amount_refunded = amount`), the request is not rejected locally: the
computed available amount 0 fails the positive-amount guard, so the
refund request is sent to the platform with no `amount` field at all —
a full-refund request — and the controller's outcome is the platform's
response. -/
theorem createRefund_zero_balance (π : Platform) (cid : String)
    (u : UserRow) (charge : ChargeRec) (s : PState)
    (hcid : cid ≠ "")
    (huser : π.userRow = some u)
    (hconn : jsTruthyStr u.stripeAccountId = true)
    (hactive : u.stripeAccountStatus = "active")
    (hcharge : π.retrieveCharge cid = .ok charge)
    (hzero : charge.amount_refunded = charge.amount) :
    (createRefund π (some cid) none s).2.refundRequests =
      s.refundRequests ++ [{ charge := cid, amount := none, reason := none }] ∧
    ∀ r : RefundObj,
      π.refundResult { charge := cid, amount := none, reason := none } = .ok r →
      (createRefund π (some cid) none s).1 =
        .ok { id := r.id, amount := r.amount, currency := r.currency,
              status := r.status, charge := r.charge, created := r.created,
              reason := r.reason } := by
  have hrun : createRefund π (some cid) none s =
      createRefundService π cid (some (charge.amount - charge.amount_refunded))
        (if jsTruthyStr none then none else none)
        { bumpRemote s with chargeRetrievals := s.chargeRetrievals + 1 } := by
    unfold createRefund
    rw [if_neg (by simp [jsTruthyStr, hcid])]
    rw [bind_eq_mBind, mBind_ok _ (validateStripeAccount_ok π u s huser hconn hactive)]
    simp only [Option.getD_some]
    rw [bind_eq_mBind, mBind_ok _ (getChargeService_ok π cid charge s hcharge)]
    rw [if_neg (by simp [jsTruthyStr])]
  have hwa : refundAmountParam (some (charge.amount - charge.amount_refunded)) = none := by
    simp [refundAmountParam, hzero]
  rw [hrun]
  unfold createRefundService
  simp only [jsTruthyStr, Bool.false_eq_true, if_false]
  rw [hwa]
  have hwr : refundReasonParam none = none := rfl
  rw [hwr]
  constructor
  · cases hres : π.refundResult { charge := cid, amount := none, reason := none } <;>
      simp [hres, bumpRemote]
  · intro r hres
    rw [hres]

/-- Witness for C10: amount 1000 fully refunded; the sent request has no
amount field. -/
theorem createRefund_zero_balance_witness :
    (let π : Platform :=
      { userRow := some { stripeAccountId := some "acct_1", stripeAccountStatus := "active" },
        retrieveCharge := fun _ =>
          .ok { id := "ch_0", created := 0, amount := 1000, currency := "usd",
                status := "succeeded", paid := true, amount_refunded := 1000 } }
     (createRefund π (some "ch_0") none {}).2.refundRequests =
       [{ charge := "ch_0", amount := none, reason := none }]) := by
  have h := (createRefund_zero_balance
    { userRow := some { stripeAccountId := some "acct_1", stripeAccountStatus := "active" },
      retrieveCharge := fun _ =>
        .ok { id := "ch_0", created := 0, amount := 1000, currency := "usd",
              status := "succeeded", paid := true, amount_refunded := 1000 } }
    "ch_0"
    { stripeAccountId := some "acct_1", stripeAccountStatus := "active" }
    { id := "ch_0", created := 0, amount := 1000, currency := "usd",
      status := "succeeded", paid := true, amount_refunded := 1000 }
    {} (by decide) rfl (by decide) rfl rfl rfl).1
  simpa using h

/-! ## C1: line-item rollback -/

/-- The outcome of processing one cart item (price validation followed
by invoice-item creation) when the request's item counter is `n` — a
pure view of the loop body of `createInvoiceItemsService`. -/
def itemStepResult (π : Platform) (item : CartItem) (n : Nat) : Except JsError String :=
  match π.retrievePrice item.priceId with
  | .error e =>
    if e.statusCode.isSome then .error e
    else .error { message := jsOrMsg e "Error validating price" }
  | .ok price =>
    if price.type ≠ "one_time" then
      .error { message := "Price " ++ item.priceId ++ " is a recurring price. Only one-time prices are supported for Terminal payments.",
               statusCode := some 400, code := some "invalid-argument" }
    else
      match π.createItemFails n with
      | some e => .error { message := jsOrMsg e "Error creating invoice item" }
      | none => .ok (itemIdOf n)

/-- The invoice-item ids a batch of `m` consecutive creations produces
starting at counter `n0`. -/
def createdIds (n0 m : Nat) : List String :=
  (List.range m).map (fun j => itemIdOf (n0 + j))

/-- The loop body of `createInvoiceItemsService` over one item. -/
def itemStep (π : Platform) (customerId : Option String) (invoiceId : String)
    (item : CartItem) : M String :=
  mBind (validatePriceIsOneTime π item.priceId)
    (fun _ => createInvoiceItemService π customerId item.priceId item.quantity invoiceId)

theorem validatePrice_ok_run (π : Platform) (priceId : String) (price : Price)
    (s : PState) (hp : π.retrievePrice priceId = .ok price)
    (ht : price.type = "one_time") :
    validatePriceIsOneTime π priceId s = (.ok price, bumpRemote s) := by
  unfold validatePriceIsOneTime
  rw [hp]
  dsimp only
  rw [if_neg (by simp [ht])]

theorem validatePrice_recurring_run (π : Platform) (priceId : String) (price : Price)
    (s : PState) (hp : π.retrievePrice priceId = .ok price)
    (ht : price.type ≠ "one_time") :
    validatePriceIsOneTime π priceId s =
      (.error { message := "Price " ++ priceId ++ " is a recurring price. Only one-time prices are supported for Terminal payments.",
                statusCode := some 400, code := some "invalid-argument" },
       bumpRemote s) := by
  unfold validatePriceIsOneTime
  rw [hp]
  dsimp only
  rw [if_pos (by simp [ht])]

theorem validatePrice_err_run (π : Platform) (priceId : String) (e : JsError)
    (s : PState) (hp : π.retrievePrice priceId = .error e) :
    validatePriceIsOneTime π priceId s =
      (.error (if e.statusCode.isSome then e
               else { message := jsOrMsg e "Error validating price" }),
       bumpRemote s) := by
  unfold validatePriceIsOneTime
  rw [hp]
  dsimp only
  by_cases hsc : e.statusCode.isSome
  · rw [if_pos hsc, if_pos hsc]
  · rw [if_neg hsc, if_neg hsc]

theorem createItem_ok_run (π : Platform) (customerId : Option String)
    (priceId : String) (quantity : Int) (invoiceId : String) (s : PState)
    (hc : π.createItemFails s.nextId = none) :
    createInvoiceItemService π customerId priceId quantity invoiceId s =
      (.ok (itemIdOf s.nextId),
       { s with remoteCalls := s.remoteCalls + 1, nextId := s.nextId + 1,
                items := s.items ++
                  [{ id := itemIdOf s.nextId,
                     amount := π.itemAmount priceId quantity }] }) := by
  unfold createInvoiceItemService opCreateInvoiceItem
  rw [hc]
  rfl

theorem createItem_err_run (π : Platform) (customerId : Option String)
    (priceId : String) (quantity : Int) (invoiceId : String) (s : PState)
    (e : JsError) (hc : π.createItemFails s.nextId = some e) :
    createInvoiceItemService π customerId priceId quantity invoiceId s =
      (.error { message := jsOrMsg e "Error creating invoice item" }, bumpRemote s) := by
  unfold createInvoiceItemService opCreateInvoiceItem
  rw [hc]

theorem itemStep_ok_run (π : Platform) (customerId : Option String)
    (invoiceId : String) (item : CartItem) (s : PState)
    (h : itemStepResult π item s.nextId = .ok (itemIdOf s.nextId)) :
    itemStep π customerId invoiceId item s =
      (.ok (itemIdOf s.nextId),
       { s with remoteCalls := s.remoteCalls + 2, nextId := s.nextId + 1,
                items := s.items ++
                  [{ id := itemIdOf s.nextId,
                     amount := π.itemAmount item.priceId item.quantity }] }) := by
  unfold itemStepResult at h
  unfold itemStep
  cases hp : π.retrievePrice item.priceId with
  | error e =>
    rw [hp] at h
    dsimp only at h
    by_cases hsc : e.statusCode.isSome <;> simp [hsc] at h
  | ok price =>
    rw [hp] at h
    dsimp only at h
    by_cases ht : price.type ≠ "one_time"
    · rw [if_pos ht] at h; cases h
    · rw [if_neg ht] at h
      rw [mBind_ok _ (validatePrice_ok_run π item.priceId price s hp (by simpa using ht))]
      cases hc : π.createItemFails s.nextId with
      | some e => rw [hc] at h; cases h
      | none =>
        rw [createItem_ok_run π customerId item.priceId item.quantity invoiceId
          (bumpRemote s) (by simpa [bumpRemote] using hc)]
        rfl

theorem itemStep_err_run (π : Platform) (customerId : Option String)
    (invoiceId : String) (item : CartItem) (s : PState) (e : JsError)
    (h : itemStepResult π item s.nextId = .error e) :
    ∃ rc, itemStep π customerId invoiceId item s =
      (.error e, { s with remoteCalls := rc }) := by
  unfold itemStepResult at h
  unfold itemStep
  cases hp : π.retrievePrice item.priceId with
  | error e' =>
    rw [hp] at h
    dsimp only at h
    refine ⟨s.remoteCalls + 1, ?_⟩
    rw [mBind_err _ (validatePrice_err_run π item.priceId e' s hp)]
    by_cases hsc : e'.statusCode.isSome
    · rw [if_pos hsc] at h
      injection h with h2
      rw [if_pos hsc, h2]
      rfl
    · rw [if_neg hsc] at h
      injection h with h2
      rw [if_neg hsc, h2]
      rfl
  | ok price =>
    rw [hp] at h
    dsimp only at h
    by_cases ht : price.type ≠ "one_time"
    · rw [if_pos ht] at h
      injection h with h2
      refine ⟨s.remoteCalls + 1, ?_⟩
      rw [mBind_err _ (validatePrice_recurring_run π item.priceId price s hp ht)]
      rw [h2]
      rfl
    · rw [if_neg ht] at h
      refine ⟨s.remoteCalls + 2, ?_⟩
      rw [mBind_ok _ (validatePrice_ok_run π item.priceId price s hp (by simpa using ht))]
      cases hc : π.createItemFails s.nextId with
      | some e' =>
        rw [hc] at h
        injection h with h2
        rw [createItem_err_run π customerId item.priceId item.quantity invoiceId
          (bumpRemote s) e' (by simpa [bumpRemote] using hc), h2]
        rfl
      | none => rw [hc] at h; cases h

theorem rollback_effects (π : Platform) :
    ∀ (ids : List String) (s : PState),
    (rollbackInvoiceItems π ids s).deleteAttempts = s.deleteAttempts ++ ids ∧
    (rollbackInvoiceItems π ids s).nextId = s.nextId ∧
    (rollbackInvoiceItems π ids s).intents = s.intents ∧
    (rollbackInvoiceItems π ids s).refundRequests = s.refundRequests ∧
    (∀ x ∈ (rollbackInvoiceItems π ids s).items, x ∈ s.items) ∧
    (∀ id ∈ ids, π.deleteItemFails id = none →
      id ∉ (rollbackInvoiceItems π ids s).items.map (fun it => it.id)) := by
  intro ids
  induction ids with
  | nil =>
    intro s
    refine ⟨by simp [rollbackInvoiceItems], rfl, rfl, rfl, fun x hx => hx, by simp⟩
  | cons id rest ih =>
    intro s
    unfold rollbackInvoiceItems deleteInvoiceItemService
    cases hd : π.deleteItemFails id with
    | some e =>
      dsimp only
      obtain ⟨h1, h2, h3, h4, h5, h6⟩ := ih
        { bumpRemote s with deleteAttempts := s.deleteAttempts ++ [id] }
      refine ⟨by rw [h1]; simp, h2, h3, h4, h5, ?_⟩
      intro id' hid' hfail
      cases hid' with
      | head => rw [hfail] at hd; cases hd
      | tail _ hmem => exact h6 id' hmem hfail
    | none =>
      dsimp only
      obtain ⟨h1, h2, h3, h4, h5, h6⟩ := ih
        { bumpRemote s with
          deleteAttempts := s.deleteAttempts ++ [id]
          items := (bumpRemote s).items.filter (fun it => it.id ≠ id) }
      refine ⟨by rw [h1]; simp, h2, h3, h4, ?_, ?_⟩
      · intro x hx
        have := h5 x hx
        simp only [List.mem_filter] at this
        exact this.1
      · intro id' hid' hfail
        cases hid' with
        | head =>
          intro hmem
          simp only [List.mem_map] at hmem
          obtain ⟨it, hit, hits⟩ := hmem
          have := h5 it hit
          simp only [List.mem_filter, bumpRemote] at this
          have h2' := this.2
          rw [hits] at h2'
          simp at h2'
        | tail _ hmem => exact h6 id' hmem hfail

theorem tippingConfig_run (π : Platform) (loc : String) (s : PState) :
    ∃ rc, tippingConfigForLocation π loc s = (.ok (), { s with remoteCalls := rc }) := by
  unfold tippingConfigForLocation
  cases hrl : π.retrieveLocation loc with
  | error e => exact ⟨s.remoteCalls + 1, rfl⟩
  | ok location =>
    dsimp only
    by_cases hco : jsTruthyStr location.configuration_overrides
    · rw [if_pos hco]
      exact ⟨s.remoteCalls + 1, rfl⟩
    · rw [if_neg hco]
      cases hcc : π.createConfig with
      | error e => exact ⟨s.remoteCalls + 2, rfl⟩
      | ok cfg => exact ⟨s.remoteCalls + 3, rfl⟩

theorem ensureLocation_run (π : Platform) (readerId connectionType locationId : Option String)
    (s : PState) :
    ∃ rc, ensureLocationTippingConfig π readerId connectionType locationId s =
      (.ok (), { s with remoteCalls := rc }) := by
  unfold ensureLocationTippingConfig
  by_cases hct : connectionType ≠ some "internet"
  · rw [if_pos hct]
    exact ⟨s.remoteCalls, rfl⟩
  · rw [if_neg hct]
    cases hl : locationId with
    | some l =>
      dsimp only
      exact tippingConfig_run π l s
    | none =>
      dsimp only
      cases hr : readerId with
      | none => exact ⟨s.remoteCalls, rfl⟩
      | some rid =>
        dsimp only
        cases hrr : π.retrieveReader rid with
        | error e => exact ⟨s.remoteCalls + 1, rfl⟩
        | ok reader =>
          dsimp only
          cases hloc : reader.location with
          | none => exact ⟨s.remoteCalls + 1, rfl⟩
          | some loc =>
            dsimp only
            obtain ⟨rc, h⟩ := tippingConfig_run π loc (bumpRemote s)
            exact ⟨rc, h⟩

theorem findCustomer_ok_run (π : Platform) (cd : CustomerDetails) (custId : String)
    (s : PState) (hemail : jsTruthyStr cd.email = true)
    (hfind : π.findCustomer = .ok (some custId)) :
    findOrCreateCustomerService π cd s = (.ok custId, bumpRemote s) := by
  unfold findOrCreateCustomerService
  rw [if_neg (by simp [hemail])]
  rw [hfind]

theorem createInvoice_ok_run (π : Platform) (customerId : Option String)
    (invId : String) (s : PState) (hinv : π.createInvoiceResult = .ok invId) :
    createInvoiceService π customerId s = (.ok invId, bumpRemote s) := by
  unfold createInvoiceService
  rw [hinv]

theorem createdIds_succ (n m : Nat) :
    createdIds n (m + 1) = itemIdOf n :: createdIds (n + 1) m := by
  unfold createdIds
  rw [List.range_succ_eq_map]
  simp only [List.map_cons, Nat.add_zero, List.map_map]
  congr 1
  apply List.map_congr_left
  intro j _
  simp only [Function.comp_apply]
  congr 1
  omega

theorem itemsGo_cons (π : Platform) (invoiceId : String) (customerId : Option String)
    (item : CartItem) (rest : List CartItem) (ids : List String) :
    createInvoiceItemsGo π invoiceId customerId (item :: rest) ids = fun s =>
      match itemStep π customerId invoiceId item s with
      | (.ok id, s') => createInvoiceItemsGo π invoiceId customerId rest (ids ++ [id]) s'
      | (.error e, s') =>
        (.error (enhanceItemError item.priceId e), rollbackInvoiceItems π ids s') := rfl

/-- Failure of the line-item loop at the first item after a fully
successful prefix: the original error is re-thrown enhanced, a delete is
attempted for every id created in this batch (accumulated and prefix),
successfully-deleted ids are gone from the remote items, and no payment
intent or refund request is touched. -/
theorem itemsGo_fail (π : Platform) (customerId : Option String) (invoiceId : String)
    (e : JsError) :
    ∀ (pre : List CartItem) (item : CartItem) (rest : List CartItem)
      (ids0 : List String) (s : PState),
    (∀ j (hj : j < pre.length),
      itemStepResult π (pre.get ⟨j, hj⟩) (s.nextId + j) = .ok (itemIdOf (s.nextId + j))) →
    itemStepResult π item (s.nextId + pre.length) = .error e →
    ∃ s',
      createInvoiceItemsGo π invoiceId customerId (pre ++ item :: rest) ids0 s =
        (.error (enhanceItemError item.priceId e), s') ∧
      s'.deleteAttempts = s.deleteAttempts ++ ids0 ++ createdIds s.nextId pre.length ∧
      s'.intents = s.intents ∧
      s'.refundRequests = s.refundRequests ∧
      (∀ id ∈ ids0 ++ createdIds s.nextId pre.length, π.deleteItemFails id = none →
        id ∉ s'.items.map (fun it => it.id)) := by
  intro pre
  induction pre with
  | nil =>
    intro item rest ids0 s _ herr
    rw [List.nil_append, itemsGo_cons]
    dsimp only
    obtain ⟨rc, hstep⟩ := itemStep_err_run π customerId invoiceId item s e
      (by simpa using herr)
    rw [hstep]
    obtain ⟨h1, h2, h3, h4, _h5, h6⟩ :=
      rollback_effects π ids0 { s with remoteCalls := rc }
    refine ⟨rollbackInvoiceItems π ids0 { s with remoteCalls := rc }, rfl,
      ?_, h3, h4, ?_⟩
    · rw [h1]
      simp [createdIds]
    · intro id hid hfail
      exact h6 id (by simpa [createdIds] using hid) hfail
  | cons p pre' ih =>
    intro item rest ids0 s hok herr
    have h0 : itemStepResult π p s.nextId = .ok (itemIdOf s.nextId) := by
      simpa using hok 0 (by simp)
    have hstep := itemStep_ok_run π customerId invoiceId p s h0
    rw [List.cons_append, itemsGo_cons]
    dsimp only
    rw [hstep]
    obtain ⟨s', heq, hda, hint, href, hmem⟩ := ih item rest (ids0 ++ [itemIdOf s.nextId])
      { s with remoteCalls := s.remoteCalls + 2, nextId := s.nextId + 1, items := s.items ++ [{ id := itemIdOf s.nextId, amount := π.itemAmount p.priceId p.quantity }] }
      (by
        intro j hj
        have h1 := hok (j + 1) (by simpa using Nat.succ_lt_succ hj)
        simp only [List.get_cons_succ] at h1
        dsimp only
        rw [show s.nextId + 1 + j = s.nextId + (j + 1) by omega]
        exact h1)
      (by
        dsimp only
        rw [show s.nextId + 1 + pre'.length = s.nextId + (p :: pre').length by
          simp [List.length_cons]; omega]
        exact herr)
    dsimp only at hda hmem
    refine ⟨s', heq, ?_, hint, href, ?_⟩
    · rw [hda]
      rw [show (p :: pre').length = pre'.length + 1 from rfl, createdIds_succ]
      simp
    · intro id hid hfail
      apply hmem id ?_ hfail
      rw [show (p :: pre').length = pre'.length + 1 from rfl, createdIds_succ] at hid
      simp only [List.mem_append, List.mem_cons, List.mem_singleton] at hid ⊢
      tauto

/-- C1. In the invoice-based intent builder, if processing the cart item
at index `k` fails — price retrieval failure, a non-`one_time` price,
or item-creation failure — after items `0..k-1` succeeded, then: a
delete is attempted for every invoice item created for the earlier
items, a successfully-deleted id is absent from the remaining remote
items, the whole request aborts with the original error (enhanced, not
masked by any delete failure), and no payment intent and no refund is
ever created for the request. -/
theorem createPaymentIntentFromProducts_rollback
    (π : Platform) (userId : String) (req : ProductsReq) (k : Nat) (e : JsError)
    (custId invId : String) (u : UserRow) (s : PState)
    (hne : req.cartItems ≠ [])
    (hv : validateCartItemsLoop req.cartItems 0 = none)
    (htip : 0 ≤ req.tipAmount)
    (huser : π.userRow = some u)
    (hconn : jsTruthyStr u.stripeAccountId = true)
    (hactive : u.stripeAccountStatus = "active")
    (hemail : jsTruthyStr req.customerDetails.email = true)
    (hfind : π.findCustomer = .ok (some custId))
    (hinv : π.createInvoiceResult = .ok invId)
    (hk : k < req.cartItems.length)
    (hok : ∀ j (hj : j < k),
      itemStepResult π (req.cartItems.get ⟨j, Nat.lt_trans hj hk⟩) (s.nextId + j) =
        .ok (itemIdOf (s.nextId + j)))
    (herr : itemStepResult π (req.cartItems.get ⟨k, hk⟩) (s.nextId + k) = .error e) :
    ∃ s',
      createPaymentIntentFromProducts π userId req s =
        (.error (enhanceItemError (req.cartItems.get ⟨k, hk⟩).priceId e), s') ∧
      s'.intents = s.intents ∧
      s'.refundRequests = s.refundRequests ∧
      s'.deleteAttempts = s.deleteAttempts ++ createdIds s.nextId k ∧
      (∀ id ∈ createdIds s.nextId k, π.deleteItemFails id = none →
        id ∉ s'.items.map (fun it => it.id)) := by
  have hpre_len : (req.cartItems.take k).length = k := by
    rw [List.length_take]; omega
  have hsplit : req.cartItems =
      req.cartItems.take k ++
        req.cartItems.get ⟨k, hk⟩ :: req.cartItems.drop (k + 1) := by
    conv_lhs => rw [← List.take_append_drop k req.cartItems]
    congr 1
    exact (List.getElem_cons_drop _ _ hk).symm
  obtain ⟨rcT, hT⟩ := ensureLocation_run π req.readerId req.connectionType req.locationId s
  obtain ⟨s', heq, hda, hint, href, hmem⟩ := itemsGo_fail π (some custId) invId e
    (req.cartItems.take k) (req.cartItems.get ⟨k, hk⟩) (req.cartItems.drop (k + 1))
    [] { s with remoteCalls := rcT + 2 }
    (by
      intro j hj
      have hjk : j < k := by rw [hpre_len] at hj; exact hj
      have hget : (req.cartItems.take k).get ⟨j, hj⟩ =
          req.cartItems.get ⟨j, Nat.lt_trans hjk hk⟩ := by
        simp [List.getElem_take]
      rw [hget]
      exact hok j hjk)
    (by
      rw [hpre_len]
      exact herr)
  refine ⟨s', ?_, hint, href, by simpa [hpre_len] using hda, ?_⟩
  · unfold createPaymentIntentFromProducts
    rw [if_neg (by simp [hne])]
    rw [hv]
    dsimp only
    rw [if_neg (by omega)]
    rw [bind_eq_mBind, mBind_ok _ (validateStripeAccount_ok π u s huser hconn hactive)]
    rw [bind_eq_mBind, mBind_ok _ hT]
    rw [bind_eq_mBind,
      mBind_ok _ (findCustomer_ok_run π req.customerDetails custId _ hemail hfind)]
    rw [bind_eq_mBind, mBind_ok _ (createInvoice_ok_run π (some custId) invId _ hinv)]
    rw [bind_eq_mBind]
    exact mBind_err _ (by
      show createInvoiceItemsService π invId (some custId) req.cartItems
        { s with remoteCalls := rcT + 2 } = _
      unfold createInvoiceItemsService
      conv_lhs => rw [hsplit]
      exact heq)
  · intro id hid hfail
    apply hmem id ?_ hfail
    simpa [hpre_len] using hid

/-- Witness for C1: a two-item cart whose second price is recurring —
the first item's invoice item gets a delete attempt, the request aborts
with the enhanced recurring-price error, and no intent or refund
exists. -/
theorem createPaymentIntentFromProducts_rollback_witness :
    (let π : Platform :=
      { userRow := some { stripeAccountId := some "acct_1", stripeAccountStatus := "active" },
        retrievePrice := fun pid =>
          if pid = "p_one" then .ok { type := "one_time" } else .ok { type := "recurring" },
        findCustomer := .ok (some "cus_1") }
     let req : ProductsReq :=
      { cartItems := [{ priceId := "p_one", quantity := 1 },
                      { priceId := "p_rec", quantity := 2 }],
        customerDetails := { email := some "x@y.z" } }
     ∃ s', createPaymentIntentFromProducts π "user_1" req {} =
        (.error (enhanceItemError "p_rec"
          { message := "Price p_rec is a recurring price. Only one-time prices are supported for Terminal payments.",
            statusCode := some 400, code := some "invalid-argument" }), s') ∧
        s'.intents = [] ∧
        s'.refundRequests = [] ∧
        s'.deleteAttempts = [itemIdOf 0] ∧
        (∀ id ∈ [itemIdOf 0], id ∉ s'.items.map (fun it => it.id))) := by
  intro π req
  obtain ⟨s', h1, h2, h3, h4, h5⟩ :=
    createPaymentIntentFromProducts_rollback π "user_1" req 1
      { message := "Price p_rec is a recurring price. Only one-time prices are supported for Terminal payments.",
        statusCode := some 400, code := some "invalid-argument" }
      "cus_1" "in_1"
      { stripeAccountId := some "acct_1", stripeAccountStatus := "active" }
      {}
      (by decide) (by decide) (by decide) rfl (by decide) rfl (by decide) rfl rfl
      (by decide)
      (by
        intro j hj
        have hj0 : j = 0 := by omega
        subst hj0
        rfl)
      rfl
  refine ⟨s', h1, by simpa using h2, by simpa using h3, by simpa [createdIds] using h4, ?_⟩
  intro id hid
  apply h5 id ?_ rfl
  simp only [List.mem_singleton] at hid
  simp [createdIds, hid]

/-! ## C6: optional tip line item and the intent amount -/

/-- The line items a batch of consecutive successful creations leaves on
the invoice, starting at counter `n0`. -/
def lineItemsOf (π : Platform) : Nat → List CartItem → List LineItem
  | _, [] => []
  | n0, it :: rest =>
    { id := itemIdOf n0, amount := π.itemAmount it.priceId it.quantity } ::
      lineItemsOf π (n0 + 1) rest

theorem lineItemsOf_map_amount (π : Platform) :
    ∀ (cart : List CartItem) (n0 : Nat),
    (lineItemsOf π n0 cart).map (fun it => it.amount) =
      cart.map (fun it => π.itemAmount it.priceId it.quantity) := by
  intro cart
  induction cart with
  | nil => intro n0; rfl
  | cons it rest ih =>
    intro n0
    simp only [lineItemsOf, List.map_cons, ih]

theorem invoiceTotal_eq_sum_map (l : List LineItem) :
    invoiceTotal l = (l.map (fun it => it.amount)).sum := rfl

/-- Success of the whole line-item loop: every created id in order, the
line items appended in cart order, nothing else touched. -/
theorem itemsGo_ok (π : Platform) (customerId : Option String) (invoiceId : String) :
    ∀ (cart : List CartItem) (ids0 : List String) (s : PState),
    (∀ j (hj : j < cart.length),
      itemStepResult π (cart.get ⟨j, hj⟩) (s.nextId + j) = .ok (itemIdOf (s.nextId + j))) →
    ∃ s',
      createInvoiceItemsGo π invoiceId customerId cart ids0 s =
        (.ok (ids0 ++ createdIds s.nextId cart.length), s') ∧
      s'.items = s.items ++ lineItemsOf π s.nextId cart ∧
      s'.nextId = s.nextId + cart.length ∧
      s'.intents = s.intents ∧
      s'.deleteAttempts = s.deleteAttempts ∧
      s'.refundRequests = s.refundRequests := by
  intro cart
  induction cart with
  | nil =>
    intro ids0 s _
    refine ⟨s, ?_, by simp [lineItemsOf], by simp, rfl, rfl, rfl⟩
    simp [createInvoiceItemsGo, createdIds, pure, mPure]
  | cons p rest ih =>
    intro ids0 s hok
    have h0 : itemStepResult π p s.nextId = .ok (itemIdOf s.nextId) := by
      simpa using hok 0 (by simp)
    have hstep := itemStep_ok_run π customerId invoiceId p s h0
    obtain ⟨s', hgo, hi, hn, hint, hda, href⟩ := ih (ids0 ++ [itemIdOf s.nextId])
      { s with remoteCalls := s.remoteCalls + 2, nextId := s.nextId + 1, items := s.items ++ [{ id := itemIdOf s.nextId, amount := π.itemAmount p.priceId p.quantity }] }
      (by
        intro j hj
        have h1 := hok (j + 1) (by simpa using Nat.succ_lt_succ hj)
        simp only [List.get_cons_succ] at h1
        dsimp only
        rw [show s.nextId + 1 + j = s.nextId + (j + 1) by omega]
        exact h1)
    dsimp only at hi hn hint hda href hgo
    refine ⟨s', ?_, ?_, ?_, hint, hda, href⟩
    · rw [itemsGo_cons]
      dsimp only
      rw [hstep]
      dsimp only
      rw [hgo]
      rw [show (p :: rest).length = rest.length + 1 from rfl, createdIds_succ]
      simp
    · rw [hi, lineItemsOf]
      simp
    · rw [hn, List.length_cons]
      omega

theorem opCreateItem_ok_run (π : Platform) (amount : Int) (s : PState)
    (hc : π.createItemFails s.nextId = none) :
    opCreateInvoiceItem π amount s =
      (.ok (itemIdOf s.nextId),
       { s with remoteCalls := s.remoteCalls + 1, nextId := s.nextId + 1,
                items := s.items ++ [{ id := itemIdOf s.nextId, amount := amount }] }) := by
  unfold opCreateInvoiceItem
  rw [hc]
  rfl

theorem finalize_ok_run (π : Platform) (invoiceId : String) (s : PState)
    (hff : π.finalizeFails = none) (hlen : s.items.length ≠ 0)
    (hnz : invoiceTotal s.items ≠ 0) :
    finalizeInvoiceService π invoiceId s =
      (.ok { id := invoiceId, linesCount := s.items.length,
             total := invoiceTotal s.items, currency := π.invoiceCurrency },
       bumpRemote s) := by
  unfold finalizeInvoiceService
  rw [hff]
  dsimp only
  rw [if_neg hlen, if_neg hnz]

theorem createIntentFromInvoice_ok_run (π : Platform) (inv : Invoice)
    (md : PaymentMetadata) (customerId : Option String) (s : PState)
    (hif : π.createIntentFails = none)
    (hsec : jsTruthyStr π.intentClientSecret = true) :
    createPaymentIntentFromInvoiceService π inv md customerId s =
      (.ok { clientSecret := π.intentClientSecret.getD "",
             paymentIntentId := π.intentId },
       { bumpRemote s with intents := s.intents ++
          [{ id := π.intentId, amount := inv.total,
             currency := jsOrStr inv.currency "usd",
             clientSecret := π.intentClientSecret }] }) := by
  unfold createPaymentIntentFromInvoiceService
  rw [hif]
  dsimp only
  rw [if_neg (by simp [hsec])]
  rfl

theorem attach_state (π : Platform) (invoiceId paymentIntentId : String) (s : PState) :
    (attachPaymentIntentToInvoiceService π invoiceId paymentIntentId s).2 =
      bumpRemote s := by
  unfold attachPaymentIntentToInvoiceService
  cases π.attachFails <;> rfl

/-- C6 (the missing `addTipLineItemService` is modelled from the spec).
In a successful intent-from-products run with a positive tip, one
additional line item of exactly the tip amount (minor units) ends up
after all cart line items, the finalized invoice total is the sum of
the cart line-item totals plus the tip, and the created payment
intent's amount is exactly that total in the invoice's currency. -/
theorem createPaymentIntentFromProducts_tip
    (π : Platform) (userId : String) (req : ProductsReq)
    (custId invId : String) (u : UserRow) (s : PState)
    (hne : req.cartItems ≠ [])
    (hv : validateCartItemsLoop req.cartItems 0 = none)
    (htip : 0 < req.tipAmount)
    (huser : π.userRow = some u)
    (hconn : jsTruthyStr u.stripeAccountId = true)
    (hactive : u.stripeAccountStatus = "active")
    (hemail : jsTruthyStr req.customerDetails.email = true)
    (hfind : π.findCustomer = .ok (some custId))
    (hinv : π.createInvoiceResult = .ok invId)
    (hitems0 : s.items = [])
    (hok : ∀ j (hj : j < req.cartItems.length),
      itemStepResult π (req.cartItems.get ⟨j, hj⟩) (s.nextId + j) =
        .ok (itemIdOf (s.nextId + j)))
    (htipok : π.createItemFails (s.nextId + req.cartItems.length) = none)
    (hff : π.finalizeFails = none)
    (hnz : (req.cartItems.map (fun it => π.itemAmount it.priceId it.quantity)).sum +
      req.tipAmount ≠ 0)
    (hif : π.createIntentFails = none)
    (hsec : jsTruthyStr π.intentClientSecret = true) :
    (createPaymentIntentFromProducts π userId req s).1 =
      .ok { clientSecret := π.intentClientSecret.getD "",
            paymentIntentId := π.intentId, invoiceId := invId } ∧
    (createPaymentIntentFromProducts π userId req s).2.items.map (fun it => it.amount) =
      req.cartItems.map (fun it => π.itemAmount it.priceId it.quantity) ++
        [req.tipAmount] ∧
    (createPaymentIntentFromProducts π userId req s).2.intents = s.intents ++
      [{ id := π.intentId,
         amount :=
           (req.cartItems.map (fun it => π.itemAmount it.priceId it.quantity)).sum +
             req.tipAmount,
         currency := jsOrStr π.invoiceCurrency "usd",
         clientSecret := π.intentClientSecret }] := by
  obtain ⟨rcT, hT⟩ := ensureLocation_run π req.readerId req.connectionType req.locationId s
  obtain ⟨sIt, hgo, hi, hn, hint, hda, href⟩ := itemsGo_ok π (some custId) invId
    req.cartItems []
    (bumpRemote (bumpRemote { s with remoteCalls := rcT }))
    (fun j hj => hok j hj)
  dsimp only [bumpRemote] at hi hn hint hda href
  rw [hitems0, List.nil_append] at hi
  have hTipStep : addTipLineItemService π invId (some custId) req.tipAmount sIt =
      (.ok (itemIdOf sIt.nextId),
       { sIt with remoteCalls := sIt.remoteCalls + 1, nextId := sIt.nextId + 1,
                  items := sIt.items ++
                    [({ id := itemIdOf sIt.nextId, amount := req.tipAmount } : LineItem)] }) := by
    unfold addTipLineItemService
    exact opCreateItem_ok_run π req.tipAmount sIt (by rw [hn]; exact htipok)
  have hitemsTip : (sIt.items ++
      [({ id := itemIdOf sIt.nextId, amount := req.tipAmount } : LineItem)]).map
        (fun it => it.amount) =
      req.cartItems.map (fun it => π.itemAmount it.priceId it.quantity) ++
        [req.tipAmount] := by
    rw [List.map_append, hi, lineItemsOf_map_amount]
    rfl
  have htot : invoiceTotal (sIt.items ++
      [({ id := itemIdOf sIt.nextId, amount := req.tipAmount } : LineItem)]) =
      (req.cartItems.map (fun it => π.itemAmount it.priceId it.quantity)).sum +
        req.tipAmount := by
    rw [invoiceTotal_eq_sum_map, hitemsTip, List.sum_append]
    simp
  have hrunEq : createPaymentIntentFromProducts π userId req s =
      (.ok { clientSecret := π.intentClientSecret.getD "",
             paymentIntentId := π.intentId, invoiceId := invId },
       bumpRemote
         { (bumpRemote (bumpRemote
             { sIt with remoteCalls := sIt.remoteCalls + 1, nextId := sIt.nextId + 1,
                        items := sIt.items ++ [({ id := itemIdOf sIt.nextId, amount := req.tipAmount } : LineItem)] })) with
           intents :=
             (bumpRemote
               { sIt with remoteCalls := sIt.remoteCalls + 1, nextId := sIt.nextId + 1,
                          items := sIt.items ++ [({ id := itemIdOf sIt.nextId, amount := req.tipAmount } : LineItem)] }).intents ++
             [{ id := π.intentId,
                amount := invoiceTotal (sIt.items ++ [({ id := itemIdOf sIt.nextId, amount := req.tipAmount } : LineItem)]),
                currency := jsOrStr π.invoiceCurrency "usd",
                clientSecret := π.intentClientSecret }] }) := by
    unfold createPaymentIntentFromProducts
    rw [if_neg (by simp [hne])]
    rw [hv]
    dsimp only
    rw [if_neg (by omega)]
    rw [bind_eq_mBind, mBind_ok _ (validateStripeAccount_ok π u s huser hconn hactive)]
    rw [bind_eq_mBind, mBind_ok _ hT]
    rw [bind_eq_mBind,
      mBind_ok _ (findCustomer_ok_run π req.customerDetails custId _ hemail hfind)]
    rw [bind_eq_mBind, mBind_ok _ (createInvoice_ok_run π (some custId) invId _ hinv)]
    rw [bind_eq_mBind, mBind_ok _ (show createInvoiceItemsService π invId (some custId)
        req.cartItems (bumpRemote (bumpRemote { s with remoteCalls := rcT })) =
        (.ok ([] ++ createdIds
          (bumpRemote (bumpRemote { s with remoteCalls := rcT })).nextId
          req.cartItems.length), sIt) from by
      unfold createInvoiceItemsService
      exact hgo)]
    rw [if_pos htip]
    rw [bind_eq_mBind, mBind_ok _ hTipStep]
    rw [bind_eq_mBind, mBind_ok _ (finalize_ok_run π invId _ hff
      (by dsimp only; simp) (by dsimp only; rw [htot]; exact hnz))]
    rw [bind_eq_mBind, mBind_ok _ (createIntentFromInvoice_ok_run π _ _ (some custId) _
      hif hsec)]
    rw [bind_eq_mBind, mBind_ok _ (show tryIgnore (attachPaymentIntentToInvoiceService π
        invId π.intentId) _ = (.ok (), _) from by
      unfold tryIgnore
      rw [attach_state])]
    rfl
  refine ⟨?_, ?_, ?_⟩
  · rw [hrunEq]
  · rw [hrunEq]
    dsimp only [bumpRemote]
    exact hitemsTip
  · rw [hrunEq]
    dsimp only [bumpRemote]
    rw [hint, htot]

/-- Witness for C6: two one-time items priced 500 and 700 cents plus a
200-cent ($2.00) tip — the line items end as [500, 700, 200] and the
payment intent amount is exactly 1400 in the invoice's currency. -/
theorem createPaymentIntentFromProducts_tip_witness :
    (let π : Platform :=
      { userRow := some { stripeAccountId := some "acct_1", stripeAccountStatus := "active" },
        retrievePrice := fun _ => .ok { type := "one_time" },
        itemAmount := fun pid q => (if pid = "p_a" then 500 else 700) * q,
        findCustomer := .ok (some "cus_1") }
     let req : ProductsReq :=
      { cartItems := [{ priceId := "p_a", quantity := 1 },
                      { priceId := "p_b", quantity := 1 }],
        customerDetails := { email := some "e@x.y" },
        tipAmount := 200 }
     (createPaymentIntentFromProducts π "user_1" req {}).1 =
        .ok { clientSecret := "secret_1", paymentIntentId := "pi_1", invoiceId := "in_1" } ∧
     (createPaymentIntentFromProducts π "user_1" req {}).2.items.map
        (fun it => it.amount) = [500, 700, 200] ∧
     (createPaymentIntentFromProducts π "user_1" req {}).2.intents =
        [{ id := "pi_1", amount := 1400, currency := "usd",
           clientSecret := some "secret_1" }]) := by
  intro π req
  obtain ⟨h1, h2, h3⟩ := createPaymentIntentFromProducts_tip π "user_1" req
    "cus_1" "in_1"
    { stripeAccountId := some "acct_1", stripeAccountStatus := "active" } {}
    (by decide) rfl (by decide) rfl (by decide) rfl (by decide) rfl rfl rfl
    (by
      intro j hj
      have hlen : req.cartItems.length = 2 := rfl
      rw [hlen] at hj
      have : j = 0 ∨ j = 1 := by omega
      rcases this with h | h <;> subst h <;> rfl)
    rfl rfl (by decide) rfl (by decide)
  refine ⟨h1, ?_, ?_⟩
  · rw [h2]
    decide
  · rw [h3]
    decide

/-! ## C9: input validation versus remote calls -/

/-- C9 counterexample. A refund request with a valid charge id but a
reason outside the enumeration: the error is the stable
`invalid-argument` code, but it is reported only after one remote call
(the charge retrieval) has already been made — not "before any remote
call". -/
theorem createRefund_reason_after_remote_cex :
    (let π : Platform :=
      { userRow := some { stripeAccountId := some "acct_1", stripeAccountStatus := "active" },
        retrieveCharge := fun _ =>
          .ok { id := "ch_1", created := 0, amount := 1000, currency := "usd",
                status := "succeeded", paid := true, amount_refunded := 0 } }
     (createRefund π (some "ch_1") (some "because") {}).1 =
        .error (invalidArg "Reason must be one of: duplicate, fraudulent, requested_by_customer") ∧
     (createRefund π (some "ch_1") (some "because") {}).2.remoteCalls = 1 ∧
     (createRefund π (some "ch_1") (some "because") {}).2.chargeRetrievals = 1 ∧
     (1 : Nat) ≠ 0) := by
  refine ⟨rfl, rfl, rfl, by decide⟩

theorem validateCartItemsLoop_code :
    ∀ (cart : List CartItem) (i : Nat) (e : JsError),
    validateCartItemsLoop cart i = some e →
    e.statusCode = some 400 ∧ e.code = some "invalid-argument" := by
  intro cart
  induction cart with
  | nil => intro i e h; cases h
  | cons item rest ih =>
    intro i e h
    unfold validateCartItemsLoop at h
    by_cases h1 : jsTruthyStr (some item.priceId) = false
    · rw [if_pos h1] at h
      injection h with h2
      subst h2
      exact ⟨rfl, rfl⟩
    · rw [if_neg h1] at h
      by_cases h2 : item.quantity ≤ 0
      · rw [if_pos h2] at h
        injection h with h3
        subst h3
        exact ⟨rfl, rfl⟩
      · rw [if_neg h2] at h
        exact ih (i + 1) e h

/-- C9 (amended). Each structural validation rejects with the stable
`invalid-argument` code: a missing or non-positive amount, an empty or
malformed cart, a malformed date string and a malformed refund charge
id are all rejected before any remote call, with the state untouched;
the refund reason enumeration, however, is checked only after the
charge retrieval — the rejection still carries `invalid-argument` and
sends no refund request, but exactly one remote read has already
happened. -/
theorem inputValidation_spec (π : Platform) (s : PState) :
    (∀ (userId : String) (amount : Option Int) (currency : Option String)
        (md : MetadataExtras) (cd : CustomerDetails) (r ct l : Option String),
      (amount = none ∨ ∃ a, amount = some a ∧ a ≤ 0) →
      createPaymentIntent π userId amount currency md cd r ct l s =
        (.error (invalidArg "Amount must be greater than zero"), s)) ∧
    (∀ (userId : String) (req : ProductsReq),
      req.cartItems = [] →
      createPaymentIntentFromProducts π userId req s =
        (.error (invalidArg "cartItems must be a non-empty array"), s)) ∧
    (∀ (userId : String) (req : ProductsReq) (e : JsError),
      validateCartItemsLoop req.cartItems 0 = some e →
      createPaymentIntentFromProducts π userId req s = (.error e, s) ∧
      e.statusCode = some 400 ∧ e.code = some "invalid-argument") ∧
    (∀ (q : StatsQuery) (fuel : Nat),
      parseDateToUTC π.todayMidnightMs q.date = none →
      getPaymentStatsService π q fuel s =
        (.error { message := "Invalid date format. Use ISO date format (e.g., 2025-12-15)",
                  statusCode := some 400, code := some "invalid-argument" }, s)) ∧
    (∀ (chargeId reason : Option String),
      jsTruthyStr chargeId = false →
      createRefund π chargeId reason s =
        (.error (invalidArg "chargeId is required and must be a string"), s)) ∧
    (∀ (cid : String) (reason : String) (u : UserRow) (charge : ChargeRec),
      cid ≠ "" → reason ≠ "" →
      reason ≠ "duplicate" → reason ≠ "fraudulent" → reason ≠ "requested_by_customer" →
      π.userRow = some u → jsTruthyStr u.stripeAccountId = true →
      u.stripeAccountStatus = "active" →
      π.retrieveCharge cid = .ok charge →
      createRefund π (some cid) (some reason) s =
        (.error (invalidArg "Reason must be one of: duplicate, fraudulent, requested_by_customer"),
         { bumpRemote s with chargeRetrievals := s.chargeRetrievals + 1 }) ∧
      ({ bumpRemote s with chargeRetrievals := s.chargeRetrievals + 1 } : PState).refundRequests =
        s.refundRequests ∧
      ({ bumpRemote s with chargeRetrievals := s.chargeRetrievals + 1 } : PState).remoteCalls =
        s.remoteCalls + 1) := by
  refine ⟨?_, ?_, ?_, ?_, ?_, ?_⟩
  · intro userId amount currency md cd r ct l h
    unfold createPaymentIntent
    rcases h with h | ⟨a, ha, hle⟩
    · rw [h]
    · rw [ha]
      dsimp only
      rw [if_pos hle]
  · intro userId req h
    unfold createPaymentIntentFromProducts
    rw [if_pos (by rw [h]; rfl)]
  · intro userId req e h
    have hcode := validateCartItemsLoop_code req.cartItems 0 e h
    have hne : req.cartItems ≠ [] := by
      intro hnil
      rw [hnil] at h
      cases h
    refine ⟨?_, hcode.1, hcode.2⟩
    unfold createPaymentIntentFromProducts
    rw [if_neg (by simp [hne])]
    rw [h]
  · intro q fuel h
    unfold getPaymentStatsService catchWrap
    rw [h]
    rfl
  · intro chargeId reason h
    unfold createRefund
    rw [if_pos (by rw [h])]
  · intro cid reason u charge hcid hre h1 h2 h3 huser hconn hactive hcharge
    refine ⟨?_, rfl, rfl⟩
    unfold createRefund
    rw [if_neg (by simp [jsTruthyStr, hcid])]
    rw [bind_eq_mBind, mBind_ok _ (validateStripeAccount_ok π u s huser hconn hactive)]
    simp only [Option.getD_some]
    rw [bind_eq_mBind, mBind_ok _ (getChargeService_ok π cid charge s hcharge)]
    rw [if_pos (by
      constructor
      · simp [jsTruthyStr, hre]
      · intro hc
        rcases hc with hc | hc | hc <;> injection hc with hc <;> contradiction)]

/-- Witness for C9's amended statement: concrete rejections — a zero
amount, an empty cart, a bad quantity, a malformed date, a missing
charge id, and an out-of-enumeration refund reason after one charge
read. -/
theorem inputValidation_spec_witness :
    (let π : Platform :=
      { userRow := some { stripeAccountId := some "acct_1", stripeAccountStatus := "active" },
        retrieveCharge := fun _ =>
          .ok { id := "ch_1", created := 0, amount := 1000, currency := "usd",
                status := "succeeded", paid := true, amount_refunded := 0 } }
     createPaymentIntent π "u" (some 0) none {} {} none none none {} =
       (.error (invalidArg "Amount must be greater than zero"), {}) ∧
     createPaymentIntentFromProducts π "u" { cartItems := [] } {} =
       (.error (invalidArg "cartItems must be a non-empty array"), {}) ∧
     (createPaymentIntentFromProducts π "u"
        { cartItems := [{ priceId := "p", quantity := 0 }] } {}).1 =
       .error (invalidArg "cartItems[0].quantity must be a positive number") ∧
     (getPaymentStatsService π { date := some "not-a-date" } 5 {}).1 =
       .error { message := "Invalid date format. Use ISO date format (e.g., 2025-12-15)",
                statusCode := some 400, code := some "invalid-argument" } ∧
     createRefund π none none {} =
       (.error (invalidArg "chargeId is required and must be a string"), {}) ∧
     (createRefund π (some "ch_1") (some "because") {}).2.refundRequests = []) := by
  intro π
  obtain ⟨ha, hb, hc, hd, he, hf⟩ := inputValidation_spec π {}
  refine ⟨?_, ?_, ?_, ?_, ?_, ?_⟩
  · exact ha "u" (some 0) none {} {} none none none (Or.inr ⟨0, rfl, by decide⟩)
  · exact hb "u" { cartItems := [] } rfl
  · rw [(hc "u" { cartItems := [{ priceId := "p", quantity := 0 }] }
      (invalidArg "cartItems[0].quantity must be a positive number") (by decide)).1]
  · rw [hd { date := some "not-a-date" } 5 rfl]
  · exact he none none rfl
  · rw [(hf "ch_1" "because"
      { stripeAccountId := some "acct_1", stripeAccountStatus := "active" }
      { id := "ch_1", created := 0, amount := 1000, currency := "usd",
        status := "succeeded", paid := true, amount_refunded := 0 }
      (by decide) (by decide) (by decide) (by decide) (by decide) rfl (by decide) rfl rfl).1]
    rfl

end Pokato
